import Mathlib

/-!
# Parameter block registry (`CeresBlocks`)

A shallow embedding of `industrial_extrinsic_cal/src/ceres_blocks.cpp`.

* A `shared_ptr<T>` is a pair of the address of its pointee and the pointee
  itself: a shared pointer keeps its pointee alive, so a pointer stored in the
  registry can always be dereferenced.  Two pointers designate the same object
  when their addresses agree.  Null shared pointers are not represented.
* A `P_BLOCK` (a `double*`) is either `NULL` or the address of the first slot
  of one array of one object: it is identified by the address of the owning
  object and by which of its arrays it is.
* The point lookups index the point sequence of a target with no range check.
  The address they return is the data pointer of the sequence moved by the
  index: a point of the target for an index inside the sequence, and otherwise
  an address that is no point of the target, null when the data pointer is null
  and the index is 0.
* `boost::make_shared` takes the next free address of a heap that never hands
  an address out twice, so any two objects that are alive at the same time
  have different addresses.
* Objects are not modified between two calls of the registry; the registry
  itself never writes to a `Camera` or a `Target`.
-/

namespace industrial_extrinsic_cal

/-! ## Data model -/

/-- Address of an object on the heap. -/
abbrev Addr := Nat

/-- Modelled from the spec: one numeric slot of a parameter block (a `double` in the
header, which is not among the sources). The registry stores and copies these values
and never computes with them, so only their identity as data matters. -/
abbrev Double := Int

/-- Modelled from the spec: `CameraParameters` (declared in a header that is not among
the sources), "an intrinsics parameter block" and "an extrinsics parameter block". -/
structure CameraParameters where
  pb_extrinsics : List Double
  pb_intrinsics : List Double
deriving DecidableEq, Repr

/-- Modelled from the spec: `Camera` (declared in a header that is not among the
sources): a name, its parameter blocks, and the flag that "distinguishes whether this
camera instance belongs to a moving-camera context". -/
structure Camera where
  camera_name_ : String
  camera_parameters_ : CameraParameters
  is_moving_ : Bool
deriving DecidableEq, Repr

/-- Modelled from the spec: the three-argument constructor of `Camera` (defined outside
the sources), which builds "a brand-new Camera whose intrinsics/extrinsics are copied
from the input camera's current values" and "tags it as a moving-context camera"
according to its last argument. -/
def Camera.new (name : String) (camera_parameters : CameraParameters) (is_moving : Bool) :
    Camera :=
  { camera_name_ := name, camera_parameters_ := camera_parameters, is_moving_ := is_moving }

/-- Modelled from the spec: `Pose6d` (declared in a header that is not among the
sources), "a pose parameter block". -/
structure Pose6d where
  pb_pose : List Double
deriving DecidableEq, Repr

/-- Modelled from the spec: `Point3d` (declared in a header that is not among the
sources), a point "owning its own 3D-position parameter block". -/
structure Point3d where
  pb : List Double
deriving DecidableEq, Repr

/-- Modelled from the spec: `Target` (declared in a header that is not among the
sources): a name, a pose parameter block and "an ordered sequence of points". The
sequence is a `std::vector`: `pts_capacity` is the number of points its storage has
room for (`pts.capacity()`), which is 0 exactly when the vector owns no storage and its
data pointer is null; a vector built from its points has room for just them. -/
structure Target where
  target_name : String
  pose : Pose6d
  pts : List Point3d
  pts_capacity : Nat := pts.length
deriving DecidableEq, Repr

/-- A `shared_ptr<α>`: the address of the pointee and the pointee. -/
structure SharedPtr (α : Type) where
  addr : Addr
  obj : α
deriving DecidableEq, Repr

/-- Modelled from the spec: `MovingCamera` (declared in a header that is not among the
sources), "a (scene index, owned Camera copy) pair". -/
structure MovingCamera where
  cam : SharedPtr Camera
  scene_id : Int
deriving DecidableEq, Repr

/-- Modelled from the spec: `MovingTarget` (declared in a header that is not among the
sources), "a (scene index, reference to a shared Target) pair". -/
structure MovingTarget where
  targ : SharedPtr Target
  scene_id : Int
deriving DecidableEq, Repr

/-- The array a non-null `P_BLOCK` points to: the owning object and which of its
arrays. -/
inductive Block where
  /-- Address `&(camera->camera_parameters_.pb_intrinsics[0])` -/
  | intrinsics (camera : Addr)
  /-- Address `&(camera->camera_parameters_.pb_extrinsics[0])` -/
  | extrinsics (camera : Addr)
  /-- Address `&(target->pose.pb_pose[0])` -/
  | pose (target : Addr)
  /-- Address `&(target->pts[index].pb[0])` for an index inside `pts` -/
  | point (target : Addr) (index : Nat)
  /-- Address `&(target->pts[index].pb[0])` as computed for an index outside `pts`: the
  slot `index` places from the start of the storage of the points of `target`, which
  is no point of the target -/
  | outside (target : Addr) (index : Int)
  /-- Address `&(target->pts[index].pb[0])` as computed from a null data pointer for an
  index other than 0: the slot `index` places from the null pointer, inside no object -/
  | unowned (index : Int)
deriving DecidableEq, Repr

/-- Modelled from the spec: `P_BLOCK` (a typedef of the missing header), the "address of a
fixed-size numeric array", or `NULL`. -/
abbrev P_BLOCK := Option Block

/-- The null pointer. -/
abbrev NULL : P_BLOCK := none

/-- What a point lookup hands to its caller: the `P_BLOCK` it returns. -/
inductive PointLookup where
  | returns (b : P_BLOCK)
deriving DecidableEq, Repr

/-- Element `i` of a `std::vector` through `operator[]` with an `int` index: `none`
when the access is outside the vector (a negative `int` converts to an index beyond
any vector). -/
def vectorAt {α : Type} (v : List α) (i : Int) : Option α :=
  if 0 ≤ i then v.get? i.toNat else none

/-- Address `&(target->pts[i].pb[0])` as `std::vector::operator[]` computes it, with
no range check: the data pointer of the vector moved by `i` slots. Inside the vector
this is the position block of point `i`. Outside it, the address is no point of the
target; it is the null pointer when the data pointer is null (the vector owns no
storage) and `i` is 0. -/
def pointAddress (target : SharedPtr Target) (i : Int) : P_BLOCK :=
  match vectorAt target.obj.pts i with
  | some _ => some (Block.point target.addr i.toNat)
  | none =>
    if target.obj.pts_capacity = 0 then
      if i = 0 then NULL else some (Block.unowned i)
    else some (Block.outside target.addr i)

/-- The allocator: every address below `next` has been handed out, none from `next`
on. -/
structure Heap where
  next : Addr
deriving DecidableEq, Repr

/-- Allocation of one object. -/
def Heap.alloc (h : Heap) : Addr × Heap :=
  (h.next, { next := h.next + 1 })

/-- On heap `h`, `boost::make_shared<α>(...)` constructing the value `v`. -/
def make_shared {α : Type} (h : Heap) (v : α) : SharedPtr α × Heap :=
  ({ addr := h.alloc.1, obj := v }, h.alloc.2)

/-- An object is alive on `h` when its address has been handed out. -/
def Heap.live (h : Heap) (a : Addr) : Prop := a < h.next

instance (h : Heap) (a : Addr) : Decidable (h.live a) := by
  unfold Heap.live; infer_instance

/-- The four collections of the registry. -/
structure CeresBlocks where
  static_cameras_ : List (SharedPtr Camera)
  static_targets_ : List (SharedPtr Target)
  moving_cameras_ : List (SharedPtr MovingCamera)
  moving_targets_ : List (SharedPtr MovingTarget)
deriving DecidableEq, Repr

/-- Constructor `CeresBlocks::CeresBlocks()`: four empty collections. -/
def CeresBlocks.new : CeresBlocks :=
  { static_cameras_ := [], static_targets_ := [], moving_cameras_ := [], moving_targets_ := [] }

/-! ## Operations -/

/-- Method `CeresBlocks::clearCamerasTargets` -/
def clearCamerasTargets (_s : CeresBlocks) : CeresBlocks :=
  { static_cameras_ := [], static_targets_ := [], moving_cameras_ := [], moving_targets_ := [] }

/-- Method `CeresBlocks::getStaticCameraParameterBlockIntrinsics` -/
def getStaticCameraParameterBlockIntrinsics (s : CeresBlocks) (camera_name : String) : P_BLOCK :=
  match s.static_cameras_.find? (fun camera => camera_name == camera.obj.camera_name_) with
  | some camera => some (Block.intrinsics camera.addr)
  | none => NULL

/-- Method `CeresBlocks::getMovingCameraParameterBlockIntrinsics` -/
def getMovingCameraParameterBlockIntrinsics (s : CeresBlocks) (camera_name : String) : P_BLOCK :=
  match s.moving_cameras_.find?
      (fun moving_camera => camera_name == moving_camera.obj.cam.obj.camera_name_) with
  | some moving_camera => some (Block.intrinsics moving_camera.obj.cam.addr)
  | none => NULL

/-- Method `CeresBlocks::getStaticCameraParameterBlockExtrinsics` -/
def getStaticCameraParameterBlockExtrinsics (s : CeresBlocks) (camera_name : String) : P_BLOCK :=
  match s.static_cameras_.find? (fun camera => camera_name == camera.obj.camera_name_) with
  | some camera => some (Block.extrinsics camera.addr)
  | none => NULL

/-- Method `CeresBlocks::getMovingCameraParameterBlockExtrinsics` -/
def getMovingCameraParameterBlockExtrinsics (s : CeresBlocks) (camera_name : String)
    (scene_id : Int) : P_BLOCK :=
  match s.moving_cameras_.find?
      (fun camera => camera_name == camera.obj.cam.obj.camera_name_
        && scene_id == camera.obj.scene_id) with
  | some camera => some (Block.extrinsics camera.obj.cam.addr)
  | none => NULL

/-- Method `CeresBlocks::getStaticTargetPoseParameterBlock` -/
def getStaticTargetPoseParameterBlock (s : CeresBlocks) (target_name : String) : P_BLOCK :=
  match s.static_targets_.find? (fun target => target_name == target.obj.target_name) with
  | some target => some (Block.pose target.addr)
  | none => NULL

/-- Method `CeresBlocks::getStaticTargetPointParameterBlock` -/
def getStaticTargetPointParameterBlock (s : CeresBlocks) (target_name : String)
    (point_id : Int) : PointLookup :=
  match s.static_targets_.find? (fun target => target_name == target.obj.target_name) with
  | some target => PointLookup.returns (pointAddress target point_id)
  | none => PointLookup.returns NULL

/-- Method `CeresBlocks::getMovingTargetPoseParameterBlock` -/
def getMovingTargetPoseParameterBlock (s : CeresBlocks) (target_name : String)
    (scene_id : Int) : P_BLOCK :=
  match s.moving_targets_.find?
      (fun moving_target => target_name == moving_target.obj.targ.obj.target_name
        && scene_id == moving_target.obj.scene_id) with
  | some moving_target => some (Block.pose moving_target.obj.targ.addr)
  | none => NULL

/-- Method `CeresBlocks::getMovingTargetPointParameterBlock` -/
def getMovingTargetPointParameterBlock (s : CeresBlocks) (target_name : String)
    (pnt_id : Int) : PointLookup :=
  match s.moving_targets_.find?
      (fun moving_target => target_name == moving_target.obj.targ.obj.target_name) with
  | some moving_target => PointLookup.returns (pointAddress moving_target.obj.targ pnt_id)
  | none => PointLookup.returns NULL

/-- Method `CeresBlocks::addStaticCamera` -/
def addStaticCamera (s : CeresBlocks) (camera_to_add : SharedPtr Camera) : Bool × CeresBlocks :=
  if s.static_cameras_.any (fun cam => cam.obj.camera_name_ == camera_to_add.obj.camera_name_) then
    (false, s)
  else
    (true, { s with static_cameras_ := s.static_cameras_ ++ [camera_to_add] })

/-- Method `CeresBlocks::addStaticTarget` -/
def addStaticTarget (s : CeresBlocks) (target_to_add : SharedPtr Target) : Bool × CeresBlocks :=
  if s.static_targets_.any (fun targ => targ.obj.target_name == target_to_add.obj.target_name) then
    (false, s)
  else
    (true, { s with static_targets_ := s.static_targets_ ++ [target_to_add] })

/-- Method `CeresBlocks::addMovingCamera`: the `MovingCamera` is allocated first, then the
`Camera` it owns. -/
def addMovingCamera (h : Heap) (s : CeresBlocks) (camera_to_add : SharedPtr Camera)
    (scene_id : Int) : Bool × CeresBlocks × Heap :=
  if s.moving_cameras_.any (fun cam =>
      cam.obj.cam.obj.camera_name_ == camera_to_add.obj.camera_name_
        && cam.obj.scene_id == scene_id) then
    (false, s, h)
  else
    let h1 := h.alloc.2
    let temp_camera :=
      make_shared h1 (Camera.new camera_to_add.obj.camera_name_ camera_to_add.obj.camera_parameters_ true)
    let temp_moving_camera : SharedPtr MovingCamera :=
      { addr := h.alloc.1, obj := { cam := temp_camera.1, scene_id := scene_id } }
    (true, { s with moving_cameras_ := s.moving_cameras_ ++ [temp_moving_camera] }, temp_camera.2)

/-- Method `CeresBlocks::addMovingTarget`: the `MovingTarget` is allocated first, then an
unused `Target` that is released on return. -/
def addMovingTarget (h : Heap) (s : CeresBlocks) (target_to_add : SharedPtr Target)
    (scene_id : Int) : Bool × CeresBlocks × Heap :=
  if s.moving_targets_.any (fun targ =>
      targ.obj.targ.obj.target_name == target_to_add.obj.target_name
        && targ.obj.scene_id == scene_id) then
    (false, s, h)
  else
    let h1 := h.alloc.2
    let h2 := h1.alloc.2
    let temp_moving_target : SharedPtr MovingTarget :=
      { addr := h.alloc.1, obj := { targ := target_to_add, scene_id := scene_id } }
    (true, { s with moving_targets_ := s.moving_targets_ ++ [temp_moving_target] }, h2)

/-! ## Sequences of calls -/

/-- The allocator together with the registry. -/
structure World where
  heap : Heap
  blocks : CeresBlocks
deriving DecidableEq, Repr

/-- One call of a state-changing method of the registry. -/
inductive Call where
  | addStaticCamera (camera_to_add : SharedPtr Camera)
  | addStaticTarget (target_to_add : SharedPtr Target)
  | addMovingCamera (camera_to_add : SharedPtr Camera) (scene_id : Int)
  | addMovingTarget (target_to_add : SharedPtr Target) (scene_id : Int)
  | clearCamerasTargets
deriving DecidableEq, Repr

/-- The four insertion operations, as opposed to the reset. -/
def Call.isInsertion : Call → Bool
  | Call.clearCamerasTargets => false
  | _ => true

/-- The world after one call; what the call returned is dropped. -/
def call (w : World) : Call → World
  | Call.addStaticCamera c => { w with blocks := (addStaticCamera w.blocks c).2 }
  | Call.addStaticTarget t => { w with blocks := (addStaticTarget w.blocks t).2 }
  | Call.addMovingCamera c scene_id =>
    { heap := (addMovingCamera w.heap w.blocks c scene_id).2.2,
      blocks := (addMovingCamera w.heap w.blocks c scene_id).2.1 }
  | Call.addMovingTarget t scene_id =>
    { heap := (addMovingTarget w.heap w.blocks t scene_id).2.2,
      blocks := (addMovingTarget w.heap w.blocks t scene_id).2.1 }
  | Call.clearCamerasTargets => { w with blocks := clearCamerasTargets w.blocks }

/-- The world after a sequence of calls, made from left to right. -/
def calls (w : World) (cs : List Call) : World :=
  cs.foldl call w

/-! ## Relations between registries -/

/-- Registry `s2` keeps every collection of `s` as an initial segment of its own: the
entries of `s`, in their order, possibly followed by more. -/
def CeresBlocks.Extends (s s2 : CeresBlocks) : Prop :=
  List.IsPrefix s.static_cameras_ s2.static_cameras_ ∧
  List.IsPrefix s.static_targets_ s2.static_targets_ ∧
  List.IsPrefix s.moving_cameras_ s2.moving_cameras_ ∧
  List.IsPrefix s.moving_targets_ s2.moving_targets_

/-- No two entries of a collection carry the same key: the name in the static
collections, the name and the scene id in the moving ones. -/
def CeresBlocks.KeysUnique (s : CeresBlocks) : Prop :=
  s.static_cameras_.Pairwise (fun a b => a.obj.camera_name_ ≠ b.obj.camera_name_) ∧
  s.static_targets_.Pairwise (fun a b => a.obj.target_name ≠ b.obj.target_name) ∧
  s.moving_cameras_.Pairwise (fun a b =>
    ¬ (a.obj.cam.obj.camera_name_ = b.obj.cam.obj.camera_name_ ∧
      a.obj.scene_id = b.obj.scene_id)) ∧
  s.moving_targets_.Pairwise (fun a b =>
    ¬ (a.obj.targ.obj.target_name = b.obj.targ.obj.target_name ∧
      a.obj.scene_id = b.obj.scene_id))

/-! ## Sequences of insertions of one kind -/

/-- Successive calls of `addStaticCamera`, one for each camera of a list from left to
right: the values returned, in order, and the registry left. -/
def addStaticCameras (s : CeresBlocks) : List (SharedPtr Camera) → List Bool × CeresBlocks
  | [] => ([], s)
  | c :: cs =>
    ((addStaticCamera s c).1 :: (addStaticCameras (addStaticCamera s c).2 cs).1,
      (addStaticCameras (addStaticCamera s c).2 cs).2)

/-- Successive calls of `addMovingCamera`, one for each camera and scene id of a list
from left to right: the values returned, in order, and the registry and heap left. -/
def addMovingCameras (h : Heap) (s : CeresBlocks) :
    List (SharedPtr Camera × Int) → List Bool × CeresBlocks × Heap
  | [] => ([], s, h)
  | p :: ps =>
    ((addMovingCamera h s p.1 p.2).1 ::
        (addMovingCameras (addMovingCamera h s p.1 p.2).2.2
          (addMovingCamera h s p.1 p.2).2.1 ps).1,
      (addMovingCameras (addMovingCamera h s p.1 p.2).2.2
        (addMovingCamera h s p.1 p.2).2.1 ps).2)

/-- The elements of a list whose key occurs neither in `seen` nor earlier in the list,
in the order of the list. -/
def firstOccurrencesFrom {α κ : Type} [DecidableEq κ] (key : α → κ) (seen : List κ) :
    List α → List α
  | [] => []
  | a :: l =>
    if key a ∈ seen then firstOccurrencesFrom key seen l
    else a :: firstOccurrencesFrom key (key a :: seen) l

/-- The first element of each distinct key of a list, in order of first occurrence: each
element is paired with the elements before it in the list, and kept when its key is the
key of none of them. -/
def firstOfEachKey {α κ : Type} [DecidableEq κ] (key : α → κ) (l : List α) : List α :=
  ((l.zip l.inits).filter (fun p => decide (key p.1 ∉ p.2.map key))).map Prod.fst

/-! ## Sample objects -/

/-- A camera object at address 0, named "camA", with 4 intrinsics values. -/
def camA : SharedPtr Camera :=
  { addr := 0,
    obj := { camera_name_ := "camA",
             camera_parameters_ := { pb_extrinsics := [1, 2, 3, 4, 5, 6],
                                     pb_intrinsics := [500, 510, 320, 240] },
             is_moving_ := false } }

/-- Another camera object, at address 1, also named "camA", with other values. -/
def camA2 : SharedPtr Camera :=
  { addr := 1,
    obj := { camera_name_ := "camA",
             camera_parameters_ := { pb_extrinsics := [0, 0, 0, 7, 8, 9],
                                     pb_intrinsics := [600, 610, 300, 200] },
             is_moving_ := false } }

/-- A camera object at address 2, named "camB". -/
def camB : SharedPtr Camera :=
  { addr := 2,
    obj := { camera_name_ := "camB",
             camera_parameters_ := { pb_extrinsics := [0, 0, 0, 0, 0, 0],
                                     pb_intrinsics := [700, 710, 330, 250] },
             is_moving_ := false } }

/-- A target object at address 3, named "board", with two points. -/
def board : SharedPtr Target :=
  { addr := 3,
    obj := { target_name := "board",
             pose := { pb_pose := [0, 0, 0, 1, 1, 1] },
             pts := [{ pb := [0, 0, 0] }, { pb := [1, 0, 0] }] } }

/-- Another target object, at address 4, also named "board", with one point. -/
def board2 : SharedPtr Target :=
  { addr := 4,
    obj := { target_name := "board",
             pose := { pb_pose := [9, 9, 9, 2, 2, 2] },
             pts := [{ pb := [5, 5, 5] }] } }

/-- A heap on which the sample objects at the addresses 0 to 4 are alive. -/
def sampleHeap : Heap := { next := 5 }

/-- A registry holding `camA` and `board` in its static collections. -/
def sampleBlocks : CeresBlocks :=
  { static_cameras_ := [camA], static_targets_ := [board],
    moving_cameras_ := [], moving_targets_ := [] }

/-- The sample registry after `camB` was inserted as a moving camera of scene 1. -/
def sampleMoving : World :=
  call { heap := sampleHeap, blocks := sampleBlocks } (Call.addMovingCamera camB 1)

/-- The empty registry after `board` was inserted as a moving target of scene 1 and
`board2`, another object of the same name, as a moving target of scene 2. -/
def twoBoards : World :=
  calls { heap := sampleHeap, blocks := CeresBlocks.new }
    [Call.addMovingTarget board 1, Call.addMovingTarget board2 2]

/-- The empty registry after the one object `board` was inserted as a moving target of
scene 1 and of scene 2. -/
def oneBoard : World :=
  calls { heap := sampleHeap, blocks := CeresBlocks.new }
    [Call.addMovingTarget board 1, Call.addMovingTarget board 2]

/-! ## Scanning a collection -/

theorem find?_append_of_eq_some {α : Type} (p : α → Bool) (l l2 : List α) (a : α)
    (hfound : l.find? p = some a) : (l ++ l2).find? p = some a := by
  simp [List.find?_append, hfound]

theorem find?_append_of_eq_none {α : Type} (p : α → Bool) (l l2 : List α)
    (hnone : l.find? p = none) : (l ++ l2).find? p = l2.find? p := by
  simp [List.find?_append, hnone]

theorem find?_eq_none_of_any_eq_false {α : Type} (p q : α → Bool) (l : List α)
    (hpq : ∀ x, p x = q x) (hany : l.any q = false) : l.find? p = none := by
  rw [List.find?_eq_none]
  intro x hx hp
  have hq : l.any q = true := List.any_eq_true.mpr ⟨x, hx, by rw [← hpq]; exact hp⟩
  rw [hany] at hq
  exact Bool.noConfusion hq

/-! ## What an insertion does to the registry -/

theorem addStaticCamera_of_present (s : CeresBlocks) (c : SharedPtr Camera)
    (hany : s.static_cameras_.any (fun cam => cam.obj.camera_name_ == c.obj.camera_name_) = true) :
    addStaticCamera s c = (false, s) := by
  simp [addStaticCamera, hany]

theorem addStaticCamera_of_absent (s : CeresBlocks) (c : SharedPtr Camera)
    (hany : s.static_cameras_.any (fun cam => cam.obj.camera_name_ == c.obj.camera_name_) = false) :
    addStaticCamera s c = (true, { s with static_cameras_ := s.static_cameras_ ++ [c] }) := by
  simp [addStaticCamera, hany]

theorem addStaticTarget_of_present (s : CeresBlocks) (t : SharedPtr Target)
    (hany : s.static_targets_.any (fun targ => targ.obj.target_name == t.obj.target_name) = true) :
    addStaticTarget s t = (false, s) := by
  simp [addStaticTarget, hany]

theorem addStaticTarget_of_absent (s : CeresBlocks) (t : SharedPtr Target)
    (hany : s.static_targets_.any (fun targ => targ.obj.target_name == t.obj.target_name) = false) :
    addStaticTarget s t = (true, { s with static_targets_ := s.static_targets_ ++ [t] }) := by
  simp [addStaticTarget, hany]

theorem addMovingCamera_of_present (h : Heap) (s : CeresBlocks) (c : SharedPtr Camera)
    (scene_id : Int)
    (hany : s.moving_cameras_.any (fun cam =>
      cam.obj.cam.obj.camera_name_ == c.obj.camera_name_ && cam.obj.scene_id == scene_id) = true) :
    addMovingCamera h s c scene_id = (false, s, h) := by
  simp [addMovingCamera, hany]

theorem addMovingCamera_of_absent (h : Heap) (s : CeresBlocks) (c : SharedPtr Camera)
    (scene_id : Int)
    (hany : s.moving_cameras_.any (fun cam =>
      cam.obj.cam.obj.camera_name_ == c.obj.camera_name_ && cam.obj.scene_id == scene_id) = false) :
    addMovingCamera h s c scene_id =
      (true,
        { s with moving_cameras_ := s.moving_cameras_ ++
            [{ addr := h.next,
               obj := { cam := { addr := h.next + 1,
                                 obj := Camera.new c.obj.camera_name_ c.obj.camera_parameters_ true },
                        scene_id := scene_id } }] },
        { next := h.next + 2 }) := by
  simp [addMovingCamera, hany, make_shared, Heap.alloc]

theorem addMovingTarget_of_present (h : Heap) (s : CeresBlocks) (t : SharedPtr Target)
    (scene_id : Int)
    (hany : s.moving_targets_.any (fun targ =>
      targ.obj.targ.obj.target_name == t.obj.target_name && targ.obj.scene_id == scene_id) = true) :
    addMovingTarget h s t scene_id = (false, s, h) := by
  simp [addMovingTarget, hany]

theorem addMovingTarget_of_absent (h : Heap) (s : CeresBlocks) (t : SharedPtr Target)
    (scene_id : Int)
    (hany : s.moving_targets_.any (fun targ =>
      targ.obj.targ.obj.target_name == t.obj.target_name && targ.obj.scene_id == scene_id) = false) :
    addMovingTarget h s t scene_id =
      (true,
        { s with moving_targets_ := s.moving_targets_ ++
            [{ addr := h.next, obj := { targ := t, scene_id := scene_id } }] },
        { next := h.next + 2 }) := by
  simp [addMovingTarget, hany, Heap.alloc]

/-! ## Duplicate insertion into the static collections -/

/-- C1: when the name of `c` is the name of a camera of `static_cameras_`,
`addStaticCamera` returns false and the registry it leaves is the registry it was given,
all four collections entry for entry (so every lookup answers as before); likewise
`addStaticTarget` for a target whose name is in `static_targets_`. -/
theorem addStatic_duplicate_rejected (s : CeresBlocks) (c : SharedPtr Camera)
    (t : SharedPtr Target) :
    ((∃ cam ∈ s.static_cameras_, cam.obj.camera_name_ = c.obj.camera_name_) →
      (addStaticCamera s c).1 = false ∧ (addStaticCamera s c).2 = s) ∧
    ((∃ targ ∈ s.static_targets_, targ.obj.target_name = t.obj.target_name) →
      (addStaticTarget s t).1 = false ∧ (addStaticTarget s t).2 = s) := by
  constructor
  · rintro ⟨cam, hmem, hname⟩
    have hany : s.static_cameras_.any
        (fun cam => cam.obj.camera_name_ == c.obj.camera_name_) = true :=
      List.any_eq_true.mpr ⟨cam, hmem, by simp [hname]⟩
    rw [addStaticCamera_of_present s c hany]
    exact ⟨rfl, rfl⟩
  · rintro ⟨targ, hmem, hname⟩
    have hany : s.static_targets_.any
        (fun targ => targ.obj.target_name == t.obj.target_name) = true :=
      List.any_eq_true.mpr ⟨targ, hmem, by simp [hname]⟩
    rw [addStaticTarget_of_present s t hany]
    exact ⟨rfl, rfl⟩

theorem addStatic_duplicate_rejected_witness :
    ((addStaticCamera sampleBlocks camA2).1 = false ∧
      (addStaticCamera sampleBlocks camA2).2 = sampleBlocks) ∧
    ((addStaticTarget sampleBlocks board2).1 = false ∧
      (addStaticTarget sampleBlocks board2).2 = sampleBlocks) :=
  ⟨(addStatic_duplicate_rejected sampleBlocks camA2 board2).1 ⟨camA, by decide, by decide⟩,
   (addStatic_duplicate_rejected sampleBlocks camA2 board2).2 ⟨board, by decide, by decide⟩⟩

/-! ## Lookup after a successful insertion -/

theorem static_camera_scan_absent (s : CeresBlocks) (c : SharedPtr Camera)
    (hany : s.static_cameras_.any (fun cam => cam.obj.camera_name_ == c.obj.camera_name_) = false) :
    s.static_cameras_.find? (fun camera => c.obj.camera_name_ == camera.obj.camera_name_) = none :=
  find?_eq_none_of_any_eq_false _ _ _ (fun x => by simp [eq_comm]) hany

theorem addStaticCamera_absent_of_true (s : CeresBlocks) (c : SharedPtr Camera)
    (hadd : (addStaticCamera s c).1 = true) :
    s.static_cameras_.any (fun cam => cam.obj.camera_name_ == c.obj.camera_name_) = false := by
  unfold addStaticCamera at hadd
  cases hany : s.static_cameras_.any (fun cam => cam.obj.camera_name_ == c.obj.camera_name_)
  · rfl
  · simp [hany] at hadd

/-- C2: when `addStaticCamera s c` returns true, the scan of the new `static_cameras_`
for the name of `c` stops at the object `c` itself (its address and the values it was
inserted with), and the intrinsics and the extrinsics lookup by that name return the
non-null addresses of the intrinsics and of the extrinsics array of the object at the
address of `c`. A lookup is a function of the registry alone, so a second call returns
the same block. -/
theorem addStaticCamera_then_lookup (s : CeresBlocks) (c : SharedPtr Camera)
    (hadd : (addStaticCamera s c).1 = true) :
    (addStaticCamera s c).2.static_cameras_.find?
        (fun camera => c.obj.camera_name_ == camera.obj.camera_name_) = some c ∧
    getStaticCameraParameterBlockIntrinsics (addStaticCamera s c).2 c.obj.camera_name_
      = some (Block.intrinsics c.addr) ∧
    getStaticCameraParameterBlockExtrinsics (addStaticCamera s c).2 c.obj.camera_name_
      = some (Block.extrinsics c.addr) ∧
    getStaticCameraParameterBlockIntrinsics (addStaticCamera s c).2 c.obj.camera_name_ ≠ NULL ∧
    getStaticCameraParameterBlockExtrinsics (addStaticCamera s c).2 c.obj.camera_name_ ≠ NULL := by
  have hany := addStaticCamera_absent_of_true s c hadd
  have hscan : (s.static_cameras_ ++ [c]).find?
      (fun camera => c.obj.camera_name_ == camera.obj.camera_name_) = some c := by
    rw [find?_append_of_eq_none _ _ _ (static_camera_scan_absent s c hany)]
    simp
  rw [addStaticCamera_of_absent s c hany]
  simp only [getStaticCameraParameterBlockIntrinsics, getStaticCameraParameterBlockExtrinsics,
    hscan]
  simp

theorem addStaticCamera_then_lookup_witness :
    (addStaticCamera sampleBlocks camB).1 = true ∧
    getStaticCameraParameterBlockIntrinsics (addStaticCamera sampleBlocks camB).2 "camB"
      = some (Block.intrinsics 2) ∧
    getStaticCameraParameterBlockExtrinsics (addStaticCamera sampleBlocks camB).2 "camB"
      = some (Block.extrinsics 2) :=
  ⟨by decide,
   (addStaticCamera_then_lookup sampleBlocks camB (by decide)).2.1,
   (addStaticCamera_then_lookup sampleBlocks camB (by decide)).2.2.1⟩

/-! ## Moving cameras: one entry for each scene -/

theorem moving_camera_any_eq_false (l : List (SharedPtr MovingCamera)) (name : String)
    (scene_id : Int)
    (hfree : ∀ e ∈ l, e.obj.cam.obj.camera_name_ = name → e.obj.scene_id ≠ scene_id) :
    l.any (fun cam => cam.obj.cam.obj.camera_name_ == name && cam.obj.scene_id == scene_id)
      = false := by
  rw [Bool.eq_false_iff]
  intro hany
  obtain ⟨e, hmem, hp⟩ := List.any_eq_true.mp hany
  simp only [Bool.and_eq_true, beq_iff_eq] at hp
  exact hfree e hmem hp.1 hp.2

theorem moving_camera_scan_absent (l : List (SharedPtr MovingCamera)) (name : String)
    (scene_id : Int)
    (hany : l.any (fun cam => cam.obj.cam.obj.camera_name_ == name
      && cam.obj.scene_id == scene_id) = false) :
    l.find? (fun camera => name == camera.obj.cam.obj.camera_name_
      && scene_id == camera.obj.scene_id) = none :=
  find?_eq_none_of_any_eq_false _ _ _
    (fun x => by rw [Bool.beq_comm (a := name), Bool.beq_comm (a := scene_id)]) hany

/-- C3: when no moving-camera entry with the name of `c` exists for scene `s1` or
for scene `s2`, and `s1 ≠ s2`: `addMovingCamera c s1` returns true; a second
`addMovingCamera c s1` returns false and leaves the registry as it was; `addMovingCamera
c s2` then returns true; and the extrinsics lookups for `s1` and for `s2` return the
extrinsics blocks of two Camera objects at different addresses (the block for `s1`
being the one returned right after the first insertion). -/
theorem addMovingCamera_per_scene (h : Heap) (s : CeresBlocks) (c : SharedPtr Camera)
    (s1 s2 : Int) (hne : s1 ≠ s2)
    (hfree : ∀ e ∈ s.moving_cameras_, e.obj.cam.obj.camera_name_ = c.obj.camera_name_ →
      e.obj.scene_id ≠ s1 ∧ e.obj.scene_id ≠ s2) :
    let r1 := addMovingCamera h s c s1
    let r2 := addMovingCamera r1.2.2 r1.2.1 c s1
    let r3 := addMovingCamera r2.2.2 r2.2.1 c s2
    r1.1 = true ∧ r2.1 = false ∧ r2.2.1 = r1.2.1 ∧ r3.1 = true ∧
    ∃ a1 a2 : Addr,
      getMovingCameraParameterBlockExtrinsics r1.2.1 c.obj.camera_name_ s1
        = some (Block.extrinsics a1) ∧
      getMovingCameraParameterBlockExtrinsics r3.2.1 c.obj.camera_name_ s1
        = some (Block.extrinsics a1) ∧
      getMovingCameraParameterBlockExtrinsics r3.2.1 c.obj.camera_name_ s2
        = some (Block.extrinsics a2) ∧
      a1 ≠ a2 := by
  have hany1 := moving_camera_any_eq_false s.moving_cameras_ c.obj.camera_name_ s1
    (fun e hmem hname => (hfree e hmem hname).1)
  have hany2 := moving_camera_any_eq_false s.moving_cameras_ c.obj.camera_name_ s2
    (fun e hmem hname => (hfree e hmem hname).2)
  have hscan1 := moving_camera_scan_absent s.moving_cameras_ c.obj.camera_name_ s1 hany1
  have hscan2 := moving_camera_scan_absent s.moving_cameras_ c.obj.camera_name_ s2 hany2
  have hr1 := addMovingCamera_of_absent h s c s1 hany1
  have hr2 := addMovingCamera_of_present (addMovingCamera h s c s1).2.2
    (addMovingCamera h s c s1).2.1 c s1
    (by rw [hr1]; simp [List.any_append, Camera.new])
  have hr3 := addMovingCamera_of_absent (addMovingCamera h s c s1).2.2
    (addMovingCamera h s c s1).2.1 c s2
    (by rw [hr1]; simp only [List.any_append, hany2]; simp [Camera.new, hne])
  simp only [hr2, hr3]
  simp only [hr1]
  refine ⟨trivial, trivial, trivial, trivial, h.next + 1, h.next + 3, ?_, ?_, ?_, ?_⟩
  · simp only [getMovingCameraParameterBlockExtrinsics]
    rw [find?_append_of_eq_none _ _ _ hscan1]
    simp [Camera.new]
  · simp only [getMovingCameraParameterBlockExtrinsics]
    rw [List.append_assoc, find?_append_of_eq_none _ _ _ hscan1]
    simp [Camera.new]
  · simp only [getMovingCameraParameterBlockExtrinsics]
    rw [List.append_assoc, find?_append_of_eq_none _ _ _ hscan2]
    simp [Camera.new, hne, Ne.symm hne]
  · simp

theorem addMovingCamera_per_scene_witness :
    (addMovingCamera sampleMoving.heap sampleMoving.blocks camA 1).1 = true ∧
    getMovingCameraParameterBlockExtrinsics
      (addMovingCamera sampleMoving.heap sampleMoving.blocks camA 1).2.1 "camA" 1
      = some (Block.extrinsics 8) ∧
    (1 : Int) ≠ 2 :=
  ⟨(addMovingCamera_per_scene sampleMoving.heap sampleMoving.blocks camA 1 2 (by decide)
      (by decide)).1,
   by decide, by decide⟩

/-! ## Moving cameras: intrinsics of the first entry of a name -/

theorem moving_camera_name_scan (l post : List (SharedPtr MovingCamera)) (n : String)
    (e : SharedPtr MovingCamera)
    (hpre : ∀ x ∈ l, x.obj.cam.obj.camera_name_ ≠ n) (hname : e.obj.cam.obj.camera_name_ = n) :
    (l ++ e :: post).find? (fun moving_camera => n == moving_camera.obj.cam.obj.camera_name_)
      = some e := by
  have hnone : l.find? (fun moving_camera => n == moving_camera.obj.cam.obj.camera_name_)
      = none := by
    rw [List.find?_eq_none]
    intro x hx hp
    exact hpre x hx (beq_iff_eq.mp hp).symm
  rw [find?_append_of_eq_none _ _ _ hnone]
  simp [hname]

/-- C4: `getMovingCameraParameterBlockIntrinsics s n` returns the intrinsics block of
the first entry of `moving_cameras_` (the earliest inserted) whose camera is named `n`,
whatever the scene id of that entry and whatever follows it. In particular, when no
entry is named as `c`, after `addMovingCamera c 1` and then `addMovingCamera c2 2`
with `c2` of the same name (both return true, appending the entries `e1` of scene 1 and
`e2` of scene 2, which own different Camera objects), the lookup returns the intrinsics
block of `e1` both before and after the second insertion. -/
theorem getMovingCameraParameterBlockIntrinsics_first_match (h : Heap) (s : CeresBlocks) :
    (∀ (n : String) (pre post : List (SharedPtr MovingCamera)) (e : SharedPtr MovingCamera),
      s.moving_cameras_ = pre ++ e :: post →
      (∀ x ∈ pre, x.obj.cam.obj.camera_name_ ≠ n) →
      e.obj.cam.obj.camera_name_ = n →
      getMovingCameraParameterBlockIntrinsics s n = some (Block.intrinsics e.obj.cam.addr)) ∧
    (∀ c c2 : SharedPtr Camera,
      c2.obj.camera_name_ = c.obj.camera_name_ →
      (∀ x ∈ s.moving_cameras_, x.obj.cam.obj.camera_name_ ≠ c.obj.camera_name_) →
      let r1 := addMovingCamera h s c 1
      let r2 := addMovingCamera r1.2.2 r1.2.1 c2 2
      r1.1 = true ∧ r2.1 = true ∧
      ∃ e1 e2 : SharedPtr MovingCamera,
        r1.2.1.moving_cameras_ = s.moving_cameras_ ++ [e1] ∧
        r2.2.1.moving_cameras_ = s.moving_cameras_ ++ [e1, e2] ∧
        e1.obj.scene_id = 1 ∧ e2.obj.scene_id = 2 ∧
        e1.obj.cam.addr ≠ e2.obj.cam.addr ∧
        getMovingCameraParameterBlockIntrinsics r1.2.1 c.obj.camera_name_
          = some (Block.intrinsics e1.obj.cam.addr) ∧
        getMovingCameraParameterBlockIntrinsics r2.2.1 c.obj.camera_name_
          = some (Block.intrinsics e1.obj.cam.addr)) := by
  constructor
  · intro n pre post e hsplit hpre hname
    simp only [getMovingCameraParameterBlockIntrinsics]
    rw [hsplit, moving_camera_name_scan pre post n e hpre hname]
  · intro c c2 hsame hfree
    have hany1 := moving_camera_any_eq_false s.moving_cameras_ c.obj.camera_name_ 1
      (fun e hmem hname => absurd hname (hfree e hmem))
    have hr1 := addMovingCamera_of_absent h s c 1 hany1
    have hr2 := addMovingCamera_of_absent (addMovingCamera h s c 1).2.2
      (addMovingCamera h s c 1).2.1 c2 2
      (by
        rw [hr1]
        apply moving_camera_any_eq_false
        intro e hmem hname
        rcases List.mem_append.mp hmem with hold | hnew
        · exact absurd (hname.trans hsame) (hfree e hold)
        · rw [List.mem_singleton.mp hnew]
          simp)
    simp only [hr2]
    simp only [hr1]
    refine ⟨trivial, trivial, _, _, rfl, List.append_assoc _ _ _, rfl, rfl, ?_, ?_, ?_⟩
    · simp
    · simp only [getMovingCameraParameterBlockIntrinsics]
      rw [moving_camera_name_scan s.moving_cameras_ [] c.obj.camera_name_ _ hfree rfl]
    · simp only [getMovingCameraParameterBlockIntrinsics]
      rw [List.append_assoc, List.singleton_append]
      rw [moving_camera_name_scan s.moving_cameras_ _ c.obj.camera_name_ _ hfree rfl]

theorem getMovingCameraParameterBlockIntrinsics_first_match_witness :
    (addMovingCamera sampleHeap sampleBlocks camA 1).1 = true ∧
    getMovingCameraParameterBlockIntrinsics
      (addMovingCamera sampleHeap sampleBlocks camA 1).2.1 "camA" = some (Block.intrinsics 6) ∧
    getMovingCameraParameterBlockIntrinsics
      (addMovingCamera (addMovingCamera sampleHeap sampleBlocks camA 1).2.2
        (addMovingCamera sampleHeap sampleBlocks camA 1).2.1 camA2 2).2.1 "camA"
      = some (Block.intrinsics 6) :=
  ⟨((getMovingCameraParameterBlockIntrinsics_first_match sampleHeap sampleBlocks).2 camA camA2
      (by decide) (by decide)).1,
   by decide, by decide⟩

/-! ## Moving targets: the pose block of each scene -/

theorem moving_target_scan_eq_some (l : List (SharedPtr MovingTarget)) (n : String)
    (scene_id : Int) (e : SharedPtr MovingTarget)
    (hfound : l.find? (fun moving_target => n == moving_target.obj.targ.obj.target_name
      && scene_id == moving_target.obj.scene_id) = some e) :
    e ∈ l ∧ e.obj.targ.obj.target_name = n ∧ e.obj.scene_id = scene_id := by
  have hp := List.find?_some hfound
  simp only [Bool.and_eq_true, beq_iff_eq] at hp
  exact ⟨List.mem_of_find?_eq_some hfound, hp.1.symm, hp.2.symm⟩

/-- C5, as stated, fails: after `addMovingTarget board 1` and `addMovingTarget board2 2`
on the empty registry, with `board` and `board2` two Target objects of the same name,
entries exist for ("board", 1) and for ("board", 2), and the two pose lookups return
the pose blocks of two different objects. -/
theorem moving_target_pose_blocks_differ :
    (∃ e ∈ twoBoards.blocks.moving_targets_,
      e.obj.targ.obj.target_name = "board" ∧ e.obj.scene_id = 1) ∧
    (∃ e ∈ twoBoards.blocks.moving_targets_,
      e.obj.targ.obj.target_name = "board" ∧ e.obj.scene_id = 2) ∧
    getMovingTargetPoseParameterBlock twoBoards.blocks "board" 1 = some (Block.pose 3) ∧
    getMovingTargetPoseParameterBlock twoBoards.blocks "board" 2 = some (Block.pose 4) ∧
    getMovingTargetPoseParameterBlock twoBoards.blocks "board" 1
      ≠ getMovingTargetPoseParameterBlock twoBoards.blocks "board" 2 := by
  decide

/-- C5, amended: when `moving_targets_` has entries for `(n, s1)` and for `(n, s2)`,
`s1 ≠ s2`, and the first entry for `(n, s1)` and the first entry for `(n, s2)` reference
the same Target object, then the two pose lookups return the same block, the pose block
of that object. -/
theorem getMovingTargetPoseParameterBlock_shared (s : CeresBlocks) (n : String) (s1 s2 : Int)
    (e1 e2 : SharedPtr MovingTarget)
    (hne : s1 ≠ s2)
    (hfirst1 : s.moving_targets_.find? (fun moving_target =>
      n == moving_target.obj.targ.obj.target_name && s1 == moving_target.obj.scene_id) = some e1)
    (hfirst2 : s.moving_targets_.find? (fun moving_target =>
      n == moving_target.obj.targ.obj.target_name && s2 == moving_target.obj.scene_id) = some e2)
    (hshared : e1.obj.targ.addr = e2.obj.targ.addr) :
    (e1 ∈ s.moving_targets_ ∧ e1.obj.targ.obj.target_name = n ∧ e1.obj.scene_id = s1) ∧
    (e2 ∈ s.moving_targets_ ∧ e2.obj.targ.obj.target_name = n ∧ e2.obj.scene_id = s2) ∧
    e1 ≠ e2 ∧
    getMovingTargetPoseParameterBlock s n s1 = some (Block.pose e1.obj.targ.addr) ∧
    getMovingTargetPoseParameterBlock s n s2 = some (Block.pose e1.obj.targ.addr) ∧
    getMovingTargetPoseParameterBlock s n s1 = getMovingTargetPoseParameterBlock s n s2 := by
  have h1 := moving_target_scan_eq_some _ _ _ _ hfirst1
  have h2 := moving_target_scan_eq_some _ _ _ _ hfirst2
  have hdiff : e1 ≠ e2 := by
    intro heq
    rw [heq] at h1
    exact hne (h1.2.2.symm.trans h2.2.2)
  refine ⟨h1, h2, hdiff, ?_, ?_, ?_⟩ <;>
    simp [getMovingTargetPoseParameterBlock, hfirst1, hfirst2, hshared]

theorem getMovingTargetPoseParameterBlock_shared_witness :
    getMovingTargetPoseParameterBlock oneBoard.blocks "board" 1 = some (Block.pose 3) ∧
    getMovingTargetPoseParameterBlock oneBoard.blocks "board" 2 = some (Block.pose 3) :=
  ⟨(getMovingTargetPoseParameterBlock_shared oneBoard.blocks "board" 1 2
      { addr := 5, obj := { targ := board, scene_id := 1 } }
      { addr := 7, obj := { targ := board, scene_id := 2 } }
      (by decide) (by decide) (by decide) (by decide)).2.2.2.1,
   (getMovingTargetPoseParameterBlock_shared oneBoard.blocks "board" 1 2
      { addr := 5, obj := { targ := board, scene_id := 1 } }
      { addr := 7, obj := { targ := board, scene_id := 2 } }
      (by decide) (by decide) (by decide) (by decide)).2.2.2.2.1⟩

/-! ## Lookups that find nothing -/

/-- C6: each of the eight lookups returns `NULL` when no entry of its collection matches
the key: the name for the static camera intrinsics and extrinsics, the static target
pose and point, the moving camera intrinsics and the moving target point; the name and
the scene id together for the moving camera extrinsics and the moving target pose. The
two point lookups then return `NULL` for every point index, negative ones included,
without indexing any point sequence. -/
theorem lookup_without_match_is_null (s : CeresBlocks) (name : String) (scene_id : Int)
    (point_id : Int) :
    ((∀ camera ∈ s.static_cameras_, camera.obj.camera_name_ ≠ name) →
      getStaticCameraParameterBlockIntrinsics s name = NULL ∧
      getStaticCameraParameterBlockExtrinsics s name = NULL) ∧
    ((∀ target ∈ s.static_targets_, target.obj.target_name ≠ name) →
      getStaticTargetPoseParameterBlock s name = NULL ∧
      getStaticTargetPointParameterBlock s name point_id = PointLookup.returns NULL) ∧
    ((∀ e ∈ s.moving_cameras_, e.obj.cam.obj.camera_name_ ≠ name) →
      getMovingCameraParameterBlockIntrinsics s name = NULL) ∧
    ((∀ e ∈ s.moving_cameras_,
        ¬ (e.obj.cam.obj.camera_name_ = name ∧ e.obj.scene_id = scene_id)) →
      getMovingCameraParameterBlockExtrinsics s name scene_id = NULL) ∧
    ((∀ e ∈ s.moving_targets_,
        ¬ (e.obj.targ.obj.target_name = name ∧ e.obj.scene_id = scene_id)) →
      getMovingTargetPoseParameterBlock s name scene_id = NULL) ∧
    ((∀ e ∈ s.moving_targets_, e.obj.targ.obj.target_name ≠ name) →
      getMovingTargetPointParameterBlock s name point_id = PointLookup.returns NULL) := by
  refine ⟨?_, ?_, ?_, ?_, ?_, ?_⟩
  · intro hno
    have hscan : s.static_cameras_.find?
        (fun camera => name == camera.obj.camera_name_) = none := by
      rw [List.find?_eq_none]
      intro x hx hp
      exact hno x hx (beq_iff_eq.mp hp).symm
    simp [getStaticCameraParameterBlockIntrinsics, getStaticCameraParameterBlockExtrinsics,
      hscan]
  · intro hno
    have hscan : s.static_targets_.find?
        (fun target => name == target.obj.target_name) = none := by
      rw [List.find?_eq_none]
      intro x hx hp
      exact hno x hx (beq_iff_eq.mp hp).symm
    simp [getStaticTargetPoseParameterBlock, getStaticTargetPointParameterBlock, hscan]
  · intro hno
    have hscan : s.moving_cameras_.find?
        (fun moving_camera => name == moving_camera.obj.cam.obj.camera_name_) = none := by
      rw [List.find?_eq_none]
      intro x hx hp
      exact hno x hx (beq_iff_eq.mp hp).symm
    simp [getMovingCameraParameterBlockIntrinsics, hscan]
  · intro hno
    have hscan : s.moving_cameras_.find?
        (fun camera => name == camera.obj.cam.obj.camera_name_
          && scene_id == camera.obj.scene_id) = none := by
      rw [List.find?_eq_none]
      intro x hx hp
      simp only [Bool.and_eq_true, beq_iff_eq] at hp
      exact hno x hx ⟨hp.1.symm, hp.2.symm⟩
    simp [getMovingCameraParameterBlockExtrinsics, hscan]
  · intro hno
    have hscan : s.moving_targets_.find?
        (fun moving_target => name == moving_target.obj.targ.obj.target_name
          && scene_id == moving_target.obj.scene_id) = none := by
      rw [List.find?_eq_none]
      intro x hx hp
      simp only [Bool.and_eq_true, beq_iff_eq] at hp
      exact hno x hx ⟨hp.1.symm, hp.2.symm⟩
    simp [getMovingTargetPoseParameterBlock, hscan]
  · intro hno
    have hscan : s.moving_targets_.find?
        (fun moving_target => name == moving_target.obj.targ.obj.target_name) = none := by
      rw [List.find?_eq_none]
      intro x hx hp
      exact hno x hx (beq_iff_eq.mp hp).symm
    simp [getMovingTargetPointParameterBlock, hscan]

theorem lookup_without_match_is_null_witness :
    (getStaticCameraParameterBlockIntrinsics sampleBlocks "camB" = NULL ∧
      getStaticCameraParameterBlockExtrinsics sampleBlocks "camB" = NULL) ∧
    (getStaticTargetPoseParameterBlock sampleBlocks "camB" = NULL ∧
      getStaticTargetPointParameterBlock sampleBlocks "camB" (-1) = PointLookup.returns NULL) ∧
    getMovingCameraParameterBlockIntrinsics sampleMoving.blocks "camA" = NULL ∧
    getMovingCameraParameterBlockExtrinsics sampleMoving.blocks "camB" 2 = NULL ∧
    getMovingTargetPoseParameterBlock twoBoards.blocks "board" 3 = NULL ∧
    getMovingTargetPointParameterBlock twoBoards.blocks "camB" 7 = PointLookup.returns NULL :=
  ⟨(lookup_without_match_is_null sampleBlocks "camB" 2 (-1)).1 (by decide),
   (lookup_without_match_is_null sampleBlocks "camB" 2 (-1)).2.1 (by decide),
   (lookup_without_match_is_null sampleMoving.blocks "camA" 2 (-1)).2.2.1 (by decide),
   (lookup_without_match_is_null sampleMoving.blocks "camB" 2 (-1)).2.2.2.1 (by decide),
   (lookup_without_match_is_null twoBoards.blocks "board" 3 (-1)).2.2.2.2.1 (by decide),
   (lookup_without_match_is_null twoBoards.blocks "camB" 3 7).2.2.2.2.2 (by decide)⟩

/-! ## Lookups and insertions after a reset -/

/-- C7: after `clearCamerasTargets` each of the eight lookups returns `NULL` for every
name, scene id and point index, and each of the four insertions, applied to the cleared
registry, returns true for every camera or target and every scene id. -/
theorem clear_then_lookup_and_insert (h : Heap) (s : CeresBlocks) (name : String)
    (scene_id : Int) (point_id : Int) (c : SharedPtr Camera) (t : SharedPtr Target) :
    getStaticCameraParameterBlockIntrinsics (clearCamerasTargets s) name = NULL ∧
    getStaticCameraParameterBlockExtrinsics (clearCamerasTargets s) name = NULL ∧
    getMovingCameraParameterBlockIntrinsics (clearCamerasTargets s) name = NULL ∧
    getMovingCameraParameterBlockExtrinsics (clearCamerasTargets s) name scene_id = NULL ∧
    getStaticTargetPoseParameterBlock (clearCamerasTargets s) name = NULL ∧
    getStaticTargetPointParameterBlock (clearCamerasTargets s) name point_id
      = PointLookup.returns NULL ∧
    getMovingTargetPoseParameterBlock (clearCamerasTargets s) name scene_id = NULL ∧
    getMovingTargetPointParameterBlock (clearCamerasTargets s) name point_id
      = PointLookup.returns NULL ∧
    (addStaticCamera (clearCamerasTargets s) c).1 = true ∧
    (addStaticTarget (clearCamerasTargets s) t).1 = true ∧
    (addMovingCamera h (clearCamerasTargets s) c scene_id).1 = true ∧
    (addMovingTarget h (clearCamerasTargets s) t scene_id).1 = true := by
  simp [clearCamerasTargets, getStaticCameraParameterBlockIntrinsics,
    getStaticCameraParameterBlockExtrinsics, getMovingCameraParameterBlockIntrinsics,
    getMovingCameraParameterBlockExtrinsics, getStaticTargetPoseParameterBlock,
    getStaticTargetPointParameterBlock, getMovingTargetPoseParameterBlock,
    getMovingTargetPointParameterBlock, addStaticCamera, addStaticTarget, addMovingCamera,
    addMovingTarget]

theorem clear_then_lookup_and_insert_witness :
    getStaticCameraParameterBlockIntrinsics sampleBlocks "camA" = some (Block.intrinsics 0) ∧
    (addStaticCamera sampleBlocks camA).1 = false ∧
    getStaticCameraParameterBlockIntrinsics (clearCamerasTargets sampleBlocks) "camA" = NULL ∧
    (addStaticCamera (clearCamerasTargets sampleBlocks) camA).1 = true :=
  ⟨by decide, by decide,
   (clear_then_lookup_and_insert sampleHeap sampleBlocks "camA" 1 0 camA board).1,
   (clear_then_lookup_and_insert sampleHeap sampleBlocks "camA" 1 0 camA board).2.2.2.2.2.2.2.2.1⟩

/-! ## Insertions only append -/

theorem Extends_refl (s : CeresBlocks) : s.Extends s :=
  ⟨List.prefix_refl _, List.prefix_refl _, List.prefix_refl _, List.prefix_refl _⟩

theorem Extends_trans {s s2 s3 : CeresBlocks} (h12 : s.Extends s2) (h23 : s2.Extends s3) :
    s.Extends s3 :=
  ⟨h12.1.trans h23.1, h12.2.1.trans h23.2.1, h12.2.2.1.trans h23.2.2.1,
    h12.2.2.2.trans h23.2.2.2⟩

theorem addStaticCamera_extends (s : CeresBlocks) (c : SharedPtr Camera) :
    s.Extends (addStaticCamera s c).2 := by
  cases hany : s.static_cameras_.any (fun cam => cam.obj.camera_name_ == c.obj.camera_name_)
  · rw [addStaticCamera_of_absent s c hany]
    exact ⟨List.prefix_append _ _, List.prefix_refl _, List.prefix_refl _, List.prefix_refl _⟩
  · rw [addStaticCamera_of_present s c hany]
    exact Extends_refl s

theorem addStaticTarget_extends (s : CeresBlocks) (t : SharedPtr Target) :
    s.Extends (addStaticTarget s t).2 := by
  cases hany : s.static_targets_.any (fun targ => targ.obj.target_name == t.obj.target_name)
  · rw [addStaticTarget_of_absent s t hany]
    exact ⟨List.prefix_refl _, List.prefix_append _ _, List.prefix_refl _, List.prefix_refl _⟩
  · rw [addStaticTarget_of_present s t hany]
    exact Extends_refl s

theorem addMovingCamera_extends (h : Heap) (s : CeresBlocks) (c : SharedPtr Camera)
    (scene_id : Int) : s.Extends (addMovingCamera h s c scene_id).2.1 := by
  cases hany : s.moving_cameras_.any (fun cam =>
    cam.obj.cam.obj.camera_name_ == c.obj.camera_name_ && cam.obj.scene_id == scene_id)
  · rw [addMovingCamera_of_absent h s c scene_id hany]
    exact ⟨List.prefix_refl _, List.prefix_refl _, List.prefix_append _ _, List.prefix_refl _⟩
  · rw [addMovingCamera_of_present h s c scene_id hany]
    exact Extends_refl s

theorem addMovingTarget_extends (h : Heap) (s : CeresBlocks) (t : SharedPtr Target)
    (scene_id : Int) : s.Extends (addMovingTarget h s t scene_id).2.1 := by
  cases hany : s.moving_targets_.any (fun targ =>
    targ.obj.targ.obj.target_name == t.obj.target_name && targ.obj.scene_id == scene_id)
  · rw [addMovingTarget_of_absent h s t scene_id hany]
    exact ⟨List.prefix_refl _, List.prefix_refl _, List.prefix_refl _, List.prefix_append _ _⟩
  · rw [addMovingTarget_of_present h s t scene_id hany]
    exact Extends_refl s

theorem call_extends (w : World) (k : Call) (hins : k.isInsertion = true) :
    w.blocks.Extends (call w k).blocks := by
  cases k with
  | addStaticCamera c => exact addStaticCamera_extends w.blocks c
  | addStaticTarget t => exact addStaticTarget_extends w.blocks t
  | addMovingCamera c scene_id => exact addMovingCamera_extends w.heap w.blocks c scene_id
  | addMovingTarget t scene_id => exact addMovingTarget_extends w.heap w.blocks t scene_id
  | clearCamerasTargets => exact absurd hins (by decide)

theorem calls_extends (cs : List Call) (w : World) (hins : ∀ k ∈ cs, k.isInsertion = true) :
    w.blocks.Extends (calls w cs).blocks := by
  induction cs generalizing w with
  | nil => exact Extends_refl _
  | cons k cs ih =>
    have hstep := call_extends w k (hins k (List.mem_cons_self _ _))
    have hrest := ih (call w k) (fun k2 hk2 => hins k2 (List.mem_cons_of_mem _ hk2))
    exact Extends_trans hstep hrest

theorem find?_of_initial_segment {α : Type} (p : α → Bool) {l l2 : List α} (a : α)
    (hpre : List.IsPrefix l l2) (hfound : l.find? p = some a) : l2.find? p = some a := by
  obtain ⟨t, rfl⟩ := hpre
  exact find?_append_of_eq_some p l t a hfound

/-! ## Blocks handed out stay the same -/

/-- C8: when a lookup returns the non-null block `b` for a key (for a point lookup with
an index inside the point sequence, `b` is the block of that point), then after any
finite sequence of insertions, each one of `addStaticCamera`, `addStaticTarget`,
`addMovingCamera`, `addMovingTarget`, successful or not, the same lookup with the same
key returns `b` again. -/
theorem lookup_stable_under_insertions (w : World) (cs : List Call)
    (hins : ∀ k ∈ cs, k.isInsertion = true) (name : String) (scene_id : Int) (point_id : Int)
    (b : Block) :
    (getStaticCameraParameterBlockIntrinsics w.blocks name = some b →
      getStaticCameraParameterBlockIntrinsics (calls w cs).blocks name = some b) ∧
    (getStaticCameraParameterBlockExtrinsics w.blocks name = some b →
      getStaticCameraParameterBlockExtrinsics (calls w cs).blocks name = some b) ∧
    (getMovingCameraParameterBlockIntrinsics w.blocks name = some b →
      getMovingCameraParameterBlockIntrinsics (calls w cs).blocks name = some b) ∧
    (getMovingCameraParameterBlockExtrinsics w.blocks name scene_id = some b →
      getMovingCameraParameterBlockExtrinsics (calls w cs).blocks name scene_id = some b) ∧
    (getStaticTargetPoseParameterBlock w.blocks name = some b →
      getStaticTargetPoseParameterBlock (calls w cs).blocks name = some b) ∧
    (getStaticTargetPointParameterBlock w.blocks name point_id = PointLookup.returns (some b) →
      getStaticTargetPointParameterBlock (calls w cs).blocks name point_id
        = PointLookup.returns (some b)) ∧
    (getMovingTargetPoseParameterBlock w.blocks name scene_id = some b →
      getMovingTargetPoseParameterBlock (calls w cs).blocks name scene_id = some b) ∧
    (getMovingTargetPointParameterBlock w.blocks name point_id = PointLookup.returns (some b) →
      getMovingTargetPointParameterBlock (calls w cs).blocks name point_id
        = PointLookup.returns (some b)) := by
  have hext := calls_extends cs w hins
  refine ⟨?_, ?_, ?_, ?_, ?_, ?_, ?_, ?_⟩
  · intro hb
    unfold getStaticCameraParameterBlockIntrinsics at hb ⊢
    cases hfind : w.blocks.static_cameras_.find? (fun camera => name == camera.obj.camera_name_) with
    | none => simp [hfind] at hb
    | some x =>
      rw [find?_of_initial_segment _ x hext.1 hfind]
      simpa [hfind] using hb
  · intro hb
    unfold getStaticCameraParameterBlockExtrinsics at hb ⊢
    cases hfind : w.blocks.static_cameras_.find? (fun camera => name == camera.obj.camera_name_) with
    | none => simp [hfind] at hb
    | some x =>
      rw [find?_of_initial_segment _ x hext.1 hfind]
      simpa [hfind] using hb
  · intro hb
    unfold getMovingCameraParameterBlockIntrinsics at hb ⊢
    cases hfind : w.blocks.moving_cameras_.find? (fun moving_camera => name == moving_camera.obj.cam.obj.camera_name_) with
    | none => simp [hfind] at hb
    | some x =>
      rw [find?_of_initial_segment _ x hext.2.2.1 hfind]
      simpa [hfind] using hb
  · intro hb
    unfold getMovingCameraParameterBlockExtrinsics at hb ⊢
    cases hfind : w.blocks.moving_cameras_.find? (fun camera => name == camera.obj.cam.obj.camera_name_
        && scene_id == camera.obj.scene_id) with
    | none => simp [hfind] at hb
    | some x =>
      rw [find?_of_initial_segment _ x hext.2.2.1 hfind]
      simpa [hfind] using hb
  · intro hb
    unfold getStaticTargetPoseParameterBlock at hb ⊢
    cases hfind : w.blocks.static_targets_.find? (fun target => name == target.obj.target_name) with
    | none => simp [hfind] at hb
    | some x =>
      rw [find?_of_initial_segment _ x hext.2.1 hfind]
      simpa [hfind] using hb
  · intro hb
    unfold getStaticTargetPointParameterBlock at hb ⊢
    cases hfind : w.blocks.static_targets_.find? (fun target => name == target.obj.target_name) with
    | none => simp [hfind] at hb
    | some x =>
      rw [find?_of_initial_segment _ x hext.2.1 hfind]
      simpa [hfind] using hb
  · intro hb
    unfold getMovingTargetPoseParameterBlock at hb ⊢
    cases hfind : w.blocks.moving_targets_.find? (fun moving_target => name == moving_target.obj.targ.obj.target_name
        && scene_id == moving_target.obj.scene_id) with
    | none => simp [hfind] at hb
    | some x =>
      rw [find?_of_initial_segment _ x hext.2.2.2 hfind]
      simpa [hfind] using hb
  · intro hb
    unfold getMovingTargetPointParameterBlock at hb ⊢
    cases hfind : w.blocks.moving_targets_.find? (fun moving_target => name == moving_target.obj.targ.obj.target_name) with
    | none => simp [hfind] at hb
    | some x =>
      rw [find?_of_initial_segment _ x hext.2.2.2 hfind]
      simpa [hfind] using hb

theorem lookup_stable_under_insertions_witness :
    getStaticCameraParameterBlockIntrinsics sampleBlocks "camA" = some (Block.intrinsics 0) ∧
    getStaticCameraParameterBlockIntrinsics
      (calls { heap := sampleHeap, blocks := sampleBlocks }
        [Call.addStaticCamera camA2, Call.addStaticCamera camB, Call.addMovingCamera camA 1,
          Call.addMovingTarget board 1, Call.addStaticTarget board2]).blocks "camA"
      = some (Block.intrinsics 0) :=
  ⟨by decide,
   (lookup_stable_under_insertions { heap := sampleHeap, blocks := sampleBlocks }
      [Call.addStaticCamera camA2, Call.addStaticCamera camB, Call.addMovingCamera camA 1,
        Call.addMovingTarget board 1, Call.addStaticTarget board2]
      (by decide) "camA" 1 0 (Block.intrinsics 0)).1 (by decide)⟩

/-! ## Keys are unique in every reachable registry -/

theorem pairwise_append_singleton {α : Type} (R : α → α → Prop) (l : List α) (a : α)
    (hl : l.Pairwise R) (hnew : ∀ x ∈ l, R x a) : (l ++ [a]).Pairwise R := by
  rw [List.pairwise_append]
  refine ⟨hl, List.pairwise_singleton R a, ?_⟩
  intro x hx y hy
  rw [List.mem_singleton.mp hy]
  exact hnew x hx

theorem addStaticCamera_keysUnique (s : CeresBlocks) (c : SharedPtr Camera)
    (hs : s.KeysUnique) : (addStaticCamera s c).2.KeysUnique := by
  cases hany : s.static_cameras_.any (fun cam => cam.obj.camera_name_ == c.obj.camera_name_)
  · rw [addStaticCamera_of_absent s c hany]
    refine ⟨pairwise_append_singleton _ _ _ hs.1 ?_, hs.2.1, hs.2.2.1, hs.2.2.2⟩
    intro x hx heq
    have htrue : s.static_cameras_.any
        (fun cam => cam.obj.camera_name_ == c.obj.camera_name_) = true :=
      List.any_eq_true.mpr ⟨x, hx, by simp [heq]⟩
    rw [hany] at htrue
    exact Bool.noConfusion htrue
  · rw [addStaticCamera_of_present s c hany]
    exact hs

theorem addStaticTarget_keysUnique (s : CeresBlocks) (t : SharedPtr Target)
    (hs : s.KeysUnique) : (addStaticTarget s t).2.KeysUnique := by
  cases hany : s.static_targets_.any (fun targ => targ.obj.target_name == t.obj.target_name)
  · rw [addStaticTarget_of_absent s t hany]
    refine ⟨hs.1, pairwise_append_singleton _ _ _ hs.2.1 ?_, hs.2.2.1, hs.2.2.2⟩
    intro x hx heq
    have htrue : s.static_targets_.any
        (fun targ => targ.obj.target_name == t.obj.target_name) = true :=
      List.any_eq_true.mpr ⟨x, hx, by simp [heq]⟩
    rw [hany] at htrue
    exact Bool.noConfusion htrue
  · rw [addStaticTarget_of_present s t hany]
    exact hs

theorem addMovingCamera_keysUnique (h : Heap) (s : CeresBlocks) (c : SharedPtr Camera)
    (scene_id : Int) (hs : s.KeysUnique) :
    (addMovingCamera h s c scene_id).2.1.KeysUnique := by
  cases hany : s.moving_cameras_.any (fun cam =>
    cam.obj.cam.obj.camera_name_ == c.obj.camera_name_ && cam.obj.scene_id == scene_id)
  · rw [addMovingCamera_of_absent h s c scene_id hany]
    refine ⟨hs.1, hs.2.1, pairwise_append_singleton _ _ _ hs.2.2.1 ?_, hs.2.2.2⟩
    intro x hx heq
    have htrue : s.moving_cameras_.any (fun cam =>
        cam.obj.cam.obj.camera_name_ == c.obj.camera_name_ && cam.obj.scene_id == scene_id)
        = true :=
      List.any_eq_true.mpr ⟨x, hx, by
        simp only [Camera.new] at heq
        simp [heq.1, heq.2]⟩
    rw [hany] at htrue
    exact Bool.noConfusion htrue
  · rw [addMovingCamera_of_present h s c scene_id hany]
    exact hs

theorem addMovingTarget_keysUnique (h : Heap) (s : CeresBlocks) (t : SharedPtr Target)
    (scene_id : Int) (hs : s.KeysUnique) :
    (addMovingTarget h s t scene_id).2.1.KeysUnique := by
  cases hany : s.moving_targets_.any (fun targ =>
    targ.obj.targ.obj.target_name == t.obj.target_name && targ.obj.scene_id == scene_id)
  · rw [addMovingTarget_of_absent h s t scene_id hany]
    refine ⟨hs.1, hs.2.1, hs.2.2.1, pairwise_append_singleton _ _ _ hs.2.2.2 ?_⟩
    intro x hx heq
    have htrue : s.moving_targets_.any (fun targ =>
        targ.obj.targ.obj.target_name == t.obj.target_name && targ.obj.scene_id == scene_id)
        = true :=
      List.any_eq_true.mpr ⟨x, hx, by simp [heq.1, heq.2]⟩
    rw [hany] at htrue
    exact Bool.noConfusion htrue
  · rw [addMovingTarget_of_present h s t scene_id hany]
    exact hs

theorem clearCamerasTargets_keysUnique (s : CeresBlocks) : (clearCamerasTargets s).KeysUnique :=
  ⟨List.Pairwise.nil, List.Pairwise.nil, List.Pairwise.nil, List.Pairwise.nil⟩

theorem call_keysUnique (w : World) (k : Call) (hw : w.blocks.KeysUnique) :
    (call w k).blocks.KeysUnique := by
  cases k with
  | addStaticCamera c => exact addStaticCamera_keysUnique w.blocks c hw
  | addStaticTarget t => exact addStaticTarget_keysUnique w.blocks t hw
  | addMovingCamera c scene_id => exact addMovingCamera_keysUnique w.heap w.blocks c scene_id hw
  | addMovingTarget t scene_id => exact addMovingTarget_keysUnique w.heap w.blocks t scene_id hw
  | clearCamerasTargets => exact clearCamerasTargets_keysUnique w.blocks

theorem calls_keysUnique (cs : List Call) (w : World) (hw : w.blocks.KeysUnique) :
    (calls w cs).blocks.KeysUnique := by
  induction cs generalizing w with
  | nil => exact hw
  | cons k cs ih => exact ih (call w k) (call_keysUnique w k hw)

/-- C9: in the registry reached from the empty registry (on any heap) by any finite
sequence of the four insertions and `clearCamerasTargets`, no two entries of
`static_cameras_` have the same camera name, no two entries of `static_targets_` the
same target name, no two entries of `moving_cameras_` the same camera name and scene id,
and no two entries of `moving_targets_` the same target name and scene id. -/
theorem reachable_keys_unique (h0 : Heap) (cs : List Call) :
    (calls { heap := h0, blocks := CeresBlocks.new } cs).blocks.static_cameras_.Pairwise
      (fun a b => a.obj.camera_name_ ≠ b.obj.camera_name_) ∧
    (calls { heap := h0, blocks := CeresBlocks.new } cs).blocks.static_targets_.Pairwise
      (fun a b => a.obj.target_name ≠ b.obj.target_name) ∧
    (calls { heap := h0, blocks := CeresBlocks.new } cs).blocks.moving_cameras_.Pairwise
      (fun a b => ¬ (a.obj.cam.obj.camera_name_ = b.obj.cam.obj.camera_name_ ∧
        a.obj.scene_id = b.obj.scene_id)) ∧
    (calls { heap := h0, blocks := CeresBlocks.new } cs).blocks.moving_targets_.Pairwise
      (fun a b => ¬ (a.obj.targ.obj.target_name = b.obj.targ.obj.target_name ∧
        a.obj.scene_id = b.obj.scene_id)) :=
  calls_keysUnique cs { heap := h0, blocks := CeresBlocks.new }
    ⟨List.Pairwise.nil, List.Pairwise.nil, List.Pairwise.nil, List.Pairwise.nil⟩

/-! ## A moving camera is a copy -/

theorem addMovingCamera_absent_of_true (h : Heap) (s : CeresBlocks) (c : SharedPtr Camera)
    (scene_id : Int) (hadd : (addMovingCamera h s c scene_id).1 = true) :
    s.moving_cameras_.any (fun cam =>
      cam.obj.cam.obj.camera_name_ == c.obj.camera_name_ && cam.obj.scene_id == scene_id)
      = false := by
  cases hany : s.moving_cameras_.any (fun cam =>
    cam.obj.cam.obj.camera_name_ == c.obj.camera_name_ && cam.obj.scene_id == scene_id)
  · rfl
  · rw [addMovingCamera_of_present h s c scene_id hany] at hadd
    exact Bool.noConfusion hadd

/-- C10: when `addMovingCamera h s c scene_id` returns true, for a camera object `c`
alive on the heap `h`, `moving_cameras_` becomes the old list followed by one entry `e`
with scene id `scene_id`, owning a Camera whose address was not alive before the call
and is alive after it, hence is not the address of `c`, and whose name and parameter
blocks (intrinsics and extrinsics) are those of `c`, with the moving flag set;
`getMovingCameraParameterBlockExtrinsics` for the name of `c` and `scene_id` then returns
the extrinsics block of that new object, not the extrinsics block of `c`, and it holds
the same values. -/
theorem addMovingCamera_stores_copy (h : Heap) (s : CeresBlocks) (c : SharedPtr Camera)
    (scene_id : Int) (hlive : h.live c.addr)
    (hadd : (addMovingCamera h s c scene_id).1 = true) :
    ∃ e : SharedPtr MovingCamera,
      (addMovingCamera h s c scene_id).2.1.moving_cameras_ = s.moving_cameras_ ++ [e] ∧
      e.obj.scene_id = scene_id ∧
      ¬ h.live e.obj.cam.addr ∧
      (addMovingCamera h s c scene_id).2.2.live e.obj.cam.addr ∧
      e.obj.cam.addr ≠ c.addr ∧
      e.obj.cam.obj.camera_name_ = c.obj.camera_name_ ∧
      e.obj.cam.obj.camera_parameters_.pb_intrinsics = c.obj.camera_parameters_.pb_intrinsics ∧
      e.obj.cam.obj.camera_parameters_.pb_extrinsics = c.obj.camera_parameters_.pb_extrinsics ∧
      e.obj.cam.obj.is_moving_ = true ∧
      getMovingCameraParameterBlockExtrinsics (addMovingCamera h s c scene_id).2.1
        c.obj.camera_name_ scene_id = some (Block.extrinsics e.obj.cam.addr) ∧
      getMovingCameraParameterBlockExtrinsics (addMovingCamera h s c scene_id).2.1
        c.obj.camera_name_ scene_id ≠ some (Block.extrinsics c.addr) := by
  have hany := addMovingCamera_absent_of_true h s c scene_id hadd
  have hscan := moving_camera_scan_absent s.moving_cameras_ c.obj.camera_name_ scene_id hany
  have hnew : h.next + 1 ≠ c.addr := by
    unfold Heap.live at hlive
    exact fun heq => absurd hlive (by rw [← heq]; simp)
  rw [addMovingCamera_of_absent h s c scene_id hany]
  refine ⟨_, rfl, rfl, ?_, ?_, hnew, rfl, rfl, rfl, rfl, ?_, ?_⟩
  · simp [Heap.live]
  · simp [Heap.live]
  · simp only [getMovingCameraParameterBlockExtrinsics]
    rw [find?_append_of_eq_none _ _ _ hscan]
    simp [Camera.new]
  · simp only [getMovingCameraParameterBlockExtrinsics]
    rw [find?_append_of_eq_none _ _ _ hscan]
    simpa [Camera.new] using hnew

theorem addMovingCamera_stores_copy_witness :
    sampleHeap.live camA.addr ∧
    (addMovingCamera sampleHeap sampleBlocks camA 1).1 = true ∧
    ∃ e : SharedPtr MovingCamera,
      (addMovingCamera sampleHeap sampleBlocks camA 1).2.1.moving_cameras_ = [e] ∧
      e.obj.cam.addr ≠ 0 ∧
      e.obj.cam.obj.camera_parameters_.pb_extrinsics = [1, 2, 3, 4, 5, 6] :=
  ⟨by decide, by decide,
   (addMovingCamera_stores_copy sampleHeap sampleBlocks camA 1 (by decide) (by decide)).imp
     (fun _ he => ⟨he.1, he.2.2.2.2.1, he.2.2.2.2.2.2.2.1⟩)⟩

/-! ## Moving targets are shared, not copied -/

theorem moving_target_any_eq_false (l : List (SharedPtr MovingTarget)) (name : String)
    (scene_id : Int)
    (hfree : ∀ e ∈ l, ¬ (e.obj.targ.obj.target_name = name ∧ e.obj.scene_id = scene_id)) :
    l.any (fun targ => targ.obj.targ.obj.target_name == name && targ.obj.scene_id == scene_id)
      = false := by
  rw [Bool.eq_false_iff]
  intro hany
  obtain ⟨e, hmem, hp⟩ := List.any_eq_true.mp hany
  simp only [Bool.and_eq_true, beq_iff_eq] at hp
  exact hfree e hmem hp

theorem moving_target_scan_absent (l : List (SharedPtr MovingTarget)) (name : String)
    (scene_id : Int)
    (hany : l.any (fun targ => targ.obj.targ.obj.target_name == name
      && targ.obj.scene_id == scene_id) = false) :
    l.find? (fun moving_target => name == moving_target.obj.targ.obj.target_name
      && scene_id == moving_target.obj.scene_id) = none :=
  find?_eq_none_of_any_eq_false _ _ _
    (fun x => by rw [Bool.beq_comm (a := name), Bool.beq_comm (a := scene_id)]) hany

/-- C11: `addMovingTarget h s t scene_id` returns false and leaves the registry (all
four collections) as it was when `moving_targets_` already has an entry with the name of
`t` and the scene id `scene_id`; otherwise it returns true, the three other collections
are unchanged, and `moving_targets_` becomes the old list followed by one entry whose
scene id is `scene_id` and whose target is the object `t` that was passed in (the same
address and contents), so that `getMovingTargetPoseParameterBlock` for the name of `t`
and `scene_id` returns the pose block of `t` itself. -/
theorem addMovingTarget_shares_target (h : Heap) (s : CeresBlocks) (t : SharedPtr Target)
    (scene_id : Int) :
    ((∃ e ∈ s.moving_targets_,
        e.obj.targ.obj.target_name = t.obj.target_name ∧ e.obj.scene_id = scene_id) →
      (addMovingTarget h s t scene_id).1 = false ∧ (addMovingTarget h s t scene_id).2.1 = s) ∧
    ((¬ ∃ e ∈ s.moving_targets_,
        e.obj.targ.obj.target_name = t.obj.target_name ∧ e.obj.scene_id = scene_id) →
      (addMovingTarget h s t scene_id).1 = true ∧
      (addMovingTarget h s t scene_id).2.1.static_cameras_ = s.static_cameras_ ∧
      (addMovingTarget h s t scene_id).2.1.static_targets_ = s.static_targets_ ∧
      (addMovingTarget h s t scene_id).2.1.moving_cameras_ = s.moving_cameras_ ∧
      (∃ e : SharedPtr MovingTarget,
        (addMovingTarget h s t scene_id).2.1.moving_targets_ = s.moving_targets_ ++ [e] ∧
        e.obj.scene_id = scene_id ∧ e.obj.targ = t) ∧
      getMovingTargetPoseParameterBlock (addMovingTarget h s t scene_id).2.1
        t.obj.target_name scene_id = some (Block.pose t.addr)) := by
  constructor
  · rintro ⟨e, hmem, hkey⟩
    have hany : s.moving_targets_.any (fun targ =>
        targ.obj.targ.obj.target_name == t.obj.target_name && targ.obj.scene_id == scene_id)
        = true :=
      List.any_eq_true.mpr ⟨e, hmem, by simp [hkey.1, hkey.2]⟩
    rw [addMovingTarget_of_present h s t scene_id hany]
    exact ⟨rfl, rfl⟩
  · intro hno
    have hany := moving_target_any_eq_false s.moving_targets_ t.obj.target_name scene_id
      (fun e hmem hkey => hno ⟨e, hmem, hkey⟩)
    have hscan := moving_target_scan_absent s.moving_targets_ t.obj.target_name scene_id hany
    rw [addMovingTarget_of_absent h s t scene_id hany]
    refine ⟨rfl, rfl, rfl, rfl, ⟨_, rfl, rfl, rfl⟩, ?_⟩
    simp only [getMovingTargetPoseParameterBlock]
    rw [find?_append_of_eq_none _ _ _ hscan]
    simp

theorem addMovingTarget_shares_target_witness :
    ((addMovingTarget oneBoard.heap oneBoard.blocks board 2).1 = false ∧
      (addMovingTarget oneBoard.heap oneBoard.blocks board 2).2.1 = oneBoard.blocks) ∧
    ((addMovingTarget oneBoard.heap oneBoard.blocks board2 3).1 = true ∧
      getMovingTargetPoseParameterBlock
        (addMovingTarget oneBoard.heap oneBoard.blocks board2 3).2.1 "board" 3
        = some (Block.pose 4)) :=
  ⟨(addMovingTarget_shares_target oneBoard.heap oneBoard.blocks board 2).1
      ⟨{ addr := 7, obj := { targ := board, scene_id := 2 } }, by decide, by decide⟩,
   ((addMovingTarget_shares_target oneBoard.heap oneBoard.blocks board2 3).2 (by decide)).1,
   ((addMovingTarget_shares_target oneBoard.heap oneBoard.blocks board2 3).2
      (by decide)).2.2.2.2.2⟩

/-! ## Point lookups -/

theorem vectorAt_in_range {α : Type} (v : List α) (i : Int) (hlo : 0 ≤ i)
    (hhi : i < (v.length : Int)) : ∃ x, vectorAt v i = some x := by
  have hlt : i.toNat < v.length := by omega
  exact ⟨v[i.toNat], by simp [vectorAt, hlo, List.get?_eq_getElem?, List.getElem?_eq_getElem hlt]⟩

theorem moving_target_name_scan (l post : List (SharedPtr MovingTarget)) (n : String)
    (e : SharedPtr MovingTarget)
    (hpre : ∀ x ∈ l, x.obj.targ.obj.target_name ≠ n) (hname : e.obj.targ.obj.target_name = n) :
    (l ++ e :: post).find? (fun moving_target => n == moving_target.obj.targ.obj.target_name)
      = some e := by
  have hnone : l.find? (fun moving_target => n == moving_target.obj.targ.obj.target_name)
      = none := by
    rw [List.find?_eq_none]
    intro x hx hp
    exact hpre x hx (beq_iff_eq.mp hp).symm
  rw [find?_append_of_eq_none _ _ _ hnone]
  simp [hname]

/-- C12: when `e` is the first entry of `moving_targets_` (the earliest inserted) whose
target is named `n`, and `0 ≤ i < ` the number of points of the target of `e`, then
`getMovingTargetPointParameterBlock s n i` returns the position block of point `i` of
the target of `e`, whatever the scene id of `e` and whatever entries follow it. -/
theorem getMovingTargetPointParameterBlock_first_match (s : CeresBlocks) (n : String)
    (pre post : List (SharedPtr MovingTarget)) (e : SharedPtr MovingTarget) (i : Int)
    (hsplit : s.moving_targets_ = pre ++ e :: post)
    (hpre : ∀ x ∈ pre, x.obj.targ.obj.target_name ≠ n)
    (hname : e.obj.targ.obj.target_name = n)
    (hlo : 0 ≤ i) (hhi : i < (e.obj.targ.obj.pts.length : Int)) :
    getMovingTargetPointParameterBlock s n i
      = PointLookup.returns (some (Block.point e.obj.targ.addr i.toNat)) := by
  obtain ⟨x, hx⟩ := vectorAt_in_range e.obj.targ.obj.pts i hlo hhi
  simp only [getMovingTargetPointParameterBlock]
  rw [hsplit, moving_target_name_scan pre post n e hpre hname]
  simp only [pointAddress, hx]

theorem getMovingTargetPointParameterBlock_first_match_witness :
    getMovingTargetPointParameterBlock twoBoards.blocks "board" 1
      = PointLookup.returns (some (Block.point 3 1)) :=
  getMovingTargetPointParameterBlock_first_match twoBoards.blocks "board" []
    [{ addr := 7, obj := { targ := board2, scene_id := 2 } }]
    { addr := 5, obj := { targ := board, scene_id := 1 } } 1
    (by decide) (by decide) (by decide) (by decide) (by decide)

/-- C13: `clearCamerasTargets` leaves `static_cameras_`, `static_targets_`,
`moving_cameras_` and `moving_targets_` all empty; applying it twice gives the same
registry as applying it once; applied to the empty registry it gives the empty
registry. -/
theorem clearCamerasTargets_empties (s : CeresBlocks) :
    (clearCamerasTargets s).static_cameras_ = [] ∧
    (clearCamerasTargets s).static_targets_ = [] ∧
    (clearCamerasTargets s).moving_cameras_ = [] ∧
    (clearCamerasTargets s).moving_targets_ = [] ∧
    clearCamerasTargets (clearCamerasTargets s) = clearCamerasTargets s ∧
    clearCamerasTargets CeresBlocks.new = CeresBlocks.new :=
  ⟨rfl, rfl, rfl, rfl, rfl, rfl⟩

theorem clearCamerasTargets_empties_witness :
    twoBoards.blocks.moving_targets_.length = 2 ∧
    (clearCamerasTargets twoBoards.blocks).moving_targets_ = [] ∧
    clearCamerasTargets (clearCamerasTargets twoBoards.blocks)
      = clearCamerasTargets twoBoards.blocks :=
  ⟨by decide, (clearCamerasTargets_empties twoBoards.blocks).2.2.2.1,
   (clearCamerasTargets_empties twoBoards.blocks).2.2.2.2.1⟩

/-! ## What an insertion may change -/

/-- C14: each insertion either returns false and leaves the registry as it was, or
returns true and leaves the three collections other than its own as they were while its
own collection becomes the old one followed by exactly one new entry (the camera or
target passed in for the static collections, one new entry for the moving ones); so no
insertion removes or reorders an entry. `clearCamerasTargets`, the one operation that
removes entries, leaves all four collections empty at once. -/
theorem insertion_frame (h : Heap) (s : CeresBlocks) (c : SharedPtr Camera)
    (t : SharedPtr Target) (scene_id : Int) :
    (((addStaticCamera s c).1 = false ∧ (addStaticCamera s c).2 = s) ∨
      ((addStaticCamera s c).1 = true ∧
        (addStaticCamera s c).2 = { s with static_cameras_ := s.static_cameras_ ++ [c] })) ∧
    (((addStaticTarget s t).1 = false ∧ (addStaticTarget s t).2 = s) ∨
      ((addStaticTarget s t).1 = true ∧
        (addStaticTarget s t).2 = { s with static_targets_ := s.static_targets_ ++ [t] })) ∧
    (((addMovingCamera h s c scene_id).1 = false ∧ (addMovingCamera h s c scene_id).2.1 = s) ∨
      ((addMovingCamera h s c scene_id).1 = true ∧
        ∃ e : SharedPtr MovingCamera, (addMovingCamera h s c scene_id).2.1
          = { s with moving_cameras_ := s.moving_cameras_ ++ [e] })) ∧
    (((addMovingTarget h s t scene_id).1 = false ∧ (addMovingTarget h s t scene_id).2.1 = s) ∨
      ((addMovingTarget h s t scene_id).1 = true ∧
        ∃ e : SharedPtr MovingTarget, (addMovingTarget h s t scene_id).2.1
          = { s with moving_targets_ := s.moving_targets_ ++ [e] })) ∧
    clearCamerasTargets s
      = { static_cameras_ := [], static_targets_ := [], moving_cameras_ := [],
          moving_targets_ := [] } := by
  refine ⟨?_, ?_, ?_, ?_, rfl⟩
  · cases hany : s.static_cameras_.any (fun cam => cam.obj.camera_name_ == c.obj.camera_name_)
    · rw [addStaticCamera_of_absent s c hany]
      exact Or.inr ⟨rfl, rfl⟩
    · rw [addStaticCamera_of_present s c hany]
      exact Or.inl ⟨rfl, rfl⟩
  · cases hany : s.static_targets_.any (fun targ => targ.obj.target_name == t.obj.target_name)
    · rw [addStaticTarget_of_absent s t hany]
      exact Or.inr ⟨rfl, rfl⟩
    · rw [addStaticTarget_of_present s t hany]
      exact Or.inl ⟨rfl, rfl⟩
  · cases hany : s.moving_cameras_.any (fun cam =>
      cam.obj.cam.obj.camera_name_ == c.obj.camera_name_ && cam.obj.scene_id == scene_id)
    · rw [addMovingCamera_of_absent h s c scene_id hany]
      exact Or.inr ⟨rfl, _, rfl⟩
    · rw [addMovingCamera_of_present h s c scene_id hany]
      exact Or.inl ⟨rfl, rfl⟩
  · cases hany : s.moving_targets_.any (fun targ =>
      targ.obj.targ.obj.target_name == t.obj.target_name && targ.obj.scene_id == scene_id)
    · rw [addMovingTarget_of_absent h s t scene_id hany]
      exact Or.inr ⟨rfl, _, rfl⟩
    · rw [addMovingTarget_of_present h s t scene_id hany]
      exact Or.inl ⟨rfl, rfl⟩

theorem insertion_frame_witness :
    (addStaticCamera sampleBlocks camA2).2 = sampleBlocks ∧
    (addStaticCamera sampleBlocks camB).2
      = { sampleBlocks with static_cameras_ := [camA, camB] } ∧
    clearCamerasTargets sampleBlocks = CeresBlocks.new :=
  ⟨((insertion_frame sampleHeap sampleBlocks camA2 board 1).1.resolve_right
      (by decide)).2,
   ((insertion_frame sampleHeap sampleBlocks camB board 1).1.resolve_left
      (by decide)).2,
   (insertion_frame sampleHeap sampleBlocks camB board 1).2.2.2.2⟩

/-! ## Duplicate detection and lookup agree -/

theorem find?_eq_none_iff_any_eq_false {α : Type} (p q : α → Bool) (l : List α)
    (hpq : ∀ x, p x = q x) : l.find? p = none ↔ l.any q = false := by
  constructor
  · intro hnone
    rw [Bool.eq_false_iff]
    intro hany
    obtain ⟨x, hx, hq⟩ := List.any_eq_true.mp hany
    exact (List.find?_eq_none.mp hnone) x hx (by rw [hpq]; exact hq)
  · exact find?_eq_none_of_any_eq_false p q l hpq

theorem getStaticCameraParameterBlockIntrinsics_eq_NULL_iff (s : CeresBlocks) (n : String) :
    getStaticCameraParameterBlockIntrinsics s n = NULL ↔
      s.static_cameras_.find? (fun camera => n == camera.obj.camera_name_) = none := by
  unfold getStaticCameraParameterBlockIntrinsics
  cases s.static_cameras_.find? (fun camera => n == camera.obj.camera_name_) <;> simp

theorem getStaticCameraParameterBlockExtrinsics_eq_NULL_iff (s : CeresBlocks) (n : String) :
    getStaticCameraParameterBlockExtrinsics s n = NULL ↔
      s.static_cameras_.find? (fun camera => n == camera.obj.camera_name_) = none := by
  unfold getStaticCameraParameterBlockExtrinsics
  cases s.static_cameras_.find? (fun camera => n == camera.obj.camera_name_) <;> simp

theorem getStaticTargetPoseParameterBlock_eq_NULL_iff (s : CeresBlocks) (n : String) :
    getStaticTargetPoseParameterBlock s n = NULL ↔
      s.static_targets_.find? (fun target => n == target.obj.target_name) = none := by
  unfold getStaticTargetPoseParameterBlock
  cases s.static_targets_.find? (fun target => n == target.obj.target_name) <;> simp

theorem getMovingCameraParameterBlockExtrinsics_eq_NULL_iff (s : CeresBlocks) (n : String)
    (scene_id : Int) :
    getMovingCameraParameterBlockExtrinsics s n scene_id = NULL ↔
      s.moving_cameras_.find? (fun camera => n == camera.obj.cam.obj.camera_name_
        && scene_id == camera.obj.scene_id) = none := by
  unfold getMovingCameraParameterBlockExtrinsics
  cases s.moving_cameras_.find? (fun camera => n == camera.obj.cam.obj.camera_name_
    && scene_id == camera.obj.scene_id) <;> simp

theorem getMovingTargetPoseParameterBlock_eq_NULL_iff (s : CeresBlocks) (n : String)
    (scene_id : Int) :
    getMovingTargetPoseParameterBlock s n scene_id = NULL ↔
      s.moving_targets_.find? (fun moving_target => n == moving_target.obj.targ.obj.target_name
        && scene_id == moving_target.obj.scene_id) = none := by
  unfold getMovingTargetPoseParameterBlock
  cases s.moving_targets_.find? (fun moving_target =>
    n == moving_target.obj.targ.obj.target_name
      && scene_id == moving_target.obj.scene_id) <;> simp

theorem fst_ite_eq_true_iff {β : Type} (a : Bool) (x y : β) :
    (if a = true then (false, x) else (true, y)).1 = true ↔ a = false := by
  cases a <;> simp

/-- C16: `addStaticCamera s c` returns true exactly when the static camera intrinsics
lookup for the name of `c` returns `NULL` on `s`, and exactly when the extrinsics lookup
does; `addStaticTarget s t` returns true exactly when the static target pose lookup for
the name of `t` returns `NULL`; `addMovingCamera h s c scene_id` returns true exactly
when the moving camera extrinsics lookup for the name of `c` and `scene_id` returns
`NULL`; `addMovingTarget h s t scene_id` returns true exactly when the moving target
pose lookup for the name of `t` and `scene_id` returns `NULL`. -/
theorem insertion_succeeds_iff_lookup_null (h : Heap) (s : CeresBlocks) (c : SharedPtr Camera)
    (t : SharedPtr Target) (scene_id : Int) :
    ((addStaticCamera s c).1 = true ↔
      getStaticCameraParameterBlockIntrinsics s c.obj.camera_name_ = NULL) ∧
    ((addStaticCamera s c).1 = true ↔
      getStaticCameraParameterBlockExtrinsics s c.obj.camera_name_ = NULL) ∧
    ((addStaticTarget s t).1 = true ↔
      getStaticTargetPoseParameterBlock s t.obj.target_name = NULL) ∧
    ((addMovingCamera h s c scene_id).1 = true ↔
      getMovingCameraParameterBlockExtrinsics s c.obj.camera_name_ scene_id = NULL) ∧
    ((addMovingTarget h s t scene_id).1 = true ↔
      getMovingTargetPoseParameterBlock s t.obj.target_name scene_id = NULL) := by
  refine ⟨?_, ?_, ?_, ?_, ?_⟩
  · rw [getStaticCameraParameterBlockIntrinsics_eq_NULL_iff]
    unfold addStaticCamera
    rw [fst_ite_eq_true_iff]
    exact (find?_eq_none_iff_any_eq_false _ _ _ (fun x => Bool.beq_comm)).symm
  · rw [getStaticCameraParameterBlockExtrinsics_eq_NULL_iff]
    unfold addStaticCamera
    rw [fst_ite_eq_true_iff]
    exact (find?_eq_none_iff_any_eq_false _ _ _ (fun x => Bool.beq_comm)).symm
  · rw [getStaticTargetPoseParameterBlock_eq_NULL_iff]
    unfold addStaticTarget
    rw [fst_ite_eq_true_iff]
    exact (find?_eq_none_iff_any_eq_false _ _ _ (fun x => Bool.beq_comm)).symm
  · rw [getMovingCameraParameterBlockExtrinsics_eq_NULL_iff]
    unfold addMovingCamera
    rw [fst_ite_eq_true_iff]
    exact (find?_eq_none_iff_any_eq_false _ _ _ (fun x => by
      rw [Bool.beq_comm (a := c.obj.camera_name_), Bool.beq_comm (a := scene_id)])).symm
  · rw [getMovingTargetPoseParameterBlock_eq_NULL_iff]
    unfold addMovingTarget
    rw [fst_ite_eq_true_iff]
    exact (find?_eq_none_iff_any_eq_false _ _ _ (fun x => by
      rw [Bool.beq_comm (a := t.obj.target_name), Bool.beq_comm (a := scene_id)])).symm

theorem insertion_succeeds_iff_lookup_null_witness :
    (addStaticCamera sampleBlocks camB).1 = true ∧
    getStaticCameraParameterBlockIntrinsics sampleBlocks "camA" ≠ NULL :=
  ⟨(insertion_succeeds_iff_lookup_null sampleHeap sampleBlocks camB board 1).1.mpr (by decide),
   fun hnull => absurd
     ((insertion_succeeds_iff_lookup_null sampleHeap sampleBlocks camA board 1).1.mpr hnull)
     (by decide)⟩

/-! ## Two target objects under one name -/

/-- C18: on the empty registry, `addMovingTarget t1 1` and then `addMovingTarget t2 2`,
with `t1` and `t2` two different Target objects of the same name `n`, both return true;
afterwards the pose lookup for `(n, 2)` returns the pose block of `t2`, while the point
lookup for `n` and an index `i` inside the points of `t1` returns point `i` of `t1`: the
pose block and the point block handed out for scene 2 of `n` belong to different
objects. -/
theorem addMovingTarget_mixes_objects (h : Heap) (t1 t2 : SharedPtr Target) (i : Int)
    (hname : t2.obj.target_name = t1.obj.target_name) (hdiff : t1.addr ≠ t2.addr)
    (hlo : 0 ≤ i) (hhi : i < (t1.obj.pts.length : Int)) :
    let r1 := addMovingTarget h CeresBlocks.new t1 1
    let r2 := addMovingTarget r1.2.2 r1.2.1 t2 2
    r1.1 = true ∧ r2.1 = true ∧
    getMovingTargetPoseParameterBlock r2.2.1 t1.obj.target_name 2 = some (Block.pose t2.addr) ∧
    getMovingTargetPointParameterBlock r2.2.1 t1.obj.target_name i
      = PointLookup.returns (some (Block.point t1.addr i.toNat)) ∧
    Block.pose t2.addr ≠ Block.pose t1.addr ∧
    Block.point t1.addr i.toNat ≠ Block.point t2.addr i.toNat := by
  obtain ⟨x, hx⟩ := vectorAt_in_range t1.obj.pts i hlo hhi
  have hr1 := addMovingTarget_of_absent h CeresBlocks.new t1 1 (by simp [CeresBlocks.new])
  have hr2 := addMovingTarget_of_absent (addMovingTarget h CeresBlocks.new t1 1).2.2
    (addMovingTarget h CeresBlocks.new t1 1).2.1 t2 2
    (by rw [hr1]; simp [CeresBlocks.new])
  simp only [hr2]
  simp only [hr1]
  refine ⟨trivial, trivial, ?_, ?_, ?_, ?_⟩
  · simp [getMovingTargetPoseParameterBlock, CeresBlocks.new, hname]
  · simp [getMovingTargetPointParameterBlock, CeresBlocks.new, pointAddress, hx]
  · simpa using Ne.symm hdiff
  · simpa using hdiff

theorem addMovingTarget_mixes_objects_witness :
    getMovingTargetPoseParameterBlock twoBoards.blocks "board" 2 = some (Block.pose 4) ∧
    getMovingTargetPointParameterBlock twoBoards.blocks "board" 1
      = PointLookup.returns (some (Block.point 3 1)) :=
  ⟨(addMovingTarget_mixes_objects sampleHeap board board2 1 (by decide) (by decide) (by decide)
      (by decide)).2.2.1,
   (addMovingTarget_mixes_objects sampleHeap board board2 1 (by decide) (by decide) (by decide)
      (by decide)).2.2.2.1⟩

/-! ## First occurrences of a key in a list -/

theorem firstOccurrencesFrom_sublist {α κ : Type} [DecidableEq κ] (key : α → κ) (l : List α)
    (seen : List κ) : List.Sublist (firstOccurrencesFrom key seen l) l := by
  induction l generalizing seen with
  | nil => exact List.Sublist.slnil
  | cons a l ih =>
    unfold firstOccurrencesFrom
    split
    · exact List.Sublist.cons a (ih seen)
    · exact List.Sublist.cons₂ a (ih (key a :: seen))

theorem firstOccurrencesFrom_not_seen {α κ : Type} [DecidableEq κ] (key : α → κ) (l : List α)
    (seen : List κ) (d : α) (hd : d ∈ firstOccurrencesFrom key seen l) : key d ∉ seen := by
  induction l generalizing seen with
  | nil => simp [firstOccurrencesFrom] at hd
  | cons a l ih =>
    unfold firstOccurrencesFrom at hd
    split at hd
    · exact ih seen hd
    · rename_i hnot
      rcases List.mem_cons.mp hd with heq | hrest
      · rw [heq]; exact hnot
      · exact fun hmem => ih (key a :: seen) hrest (List.mem_cons_of_mem _ hmem)

theorem firstOccurrencesFrom_find {α κ : Type} [DecidableEq κ] (key : α → κ) (l : List α)
    (seen : List κ) (d : α) (hd : d ∈ firstOccurrencesFrom key seen l) :
    l.find? (fun x => key x == key d) = some d := by
  induction l generalizing seen with
  | nil => simp [firstOccurrencesFrom] at hd
  | cons a l ih =>
    unfold firstOccurrencesFrom at hd
    split at hd
    · rename_i hseen
      have hne : key a ≠ key d := fun heq =>
        firstOccurrencesFrom_not_seen key l seen d hd (heq ▸ hseen)
      rw [List.find?_cons]
      simp only [beq_eq_false_iff_ne.mpr hne]
      exact ih seen hd
    · rcases List.mem_cons.mp hd with heq | hrest
      · rw [heq]; simp
      · have hne : key a ≠ key d := fun heq =>
          firstOccurrencesFrom_not_seen key l (key a :: seen) d hrest
            (heq ▸ List.mem_cons_self _ _)
        rw [List.find?_cons]
        simp only [beq_eq_false_iff_ne.mpr hne]
        exact ih (key a :: seen) hrest

theorem firstOccurrencesFrom_cover {α κ : Type} [DecidableEq κ] (key : α → κ) (l : List α)
    (seen : List κ) (c : α) (hc : c ∈ l) :
    key c ∈ seen ∨ ∃ d ∈ firstOccurrencesFrom key seen l, key d = key c := by
  induction l generalizing seen with
  | nil => simp at hc
  | cons a l ih =>
    unfold firstOccurrencesFrom
    rcases List.mem_cons.mp hc with heq | hrest
    · split
      · rename_i hseen
        exact Or.inl (heq ▸ hseen)
      · exact Or.inr ⟨a, List.mem_cons_self _ _, by rw [heq]⟩
    · split
      · exact ih seen hrest
      · rcases ih (key a :: seen) hrest with hseen | ⟨d, hd, hkey⟩
        · rcases List.mem_cons.mp hseen with heq | hold
          · exact Or.inr ⟨a, List.mem_cons_self _ _, heq.symm⟩
          · exact Or.inl hold
        · exact Or.inr ⟨d, List.mem_cons_of_mem _ hd, hkey⟩

theorem firstOccurrencesFrom_pairwise {α κ : Type} [DecidableEq κ] (key : α → κ) (l : List α)
    (seen : List κ) : (firstOccurrencesFrom key seen l).Pairwise (fun a b => key a ≠ key b) := by
  induction l generalizing seen with
  | nil => exact List.Pairwise.nil
  | cons a l ih =>
    unfold firstOccurrencesFrom
    split
    · exact ih seen
    · refine List.Pairwise.cons ?_ (ih (key a :: seen))
      intro d hd heq
      exact firstOccurrencesFrom_not_seen key l (key a :: seen) d hd
        (heq ▸ List.mem_cons_self _ _)

theorem firstOccurrencesFrom_congr {α κ : Type} [DecidableEq κ] (key : α → κ) (l : List α)
    (seen seen2 : List κ) (hsame : ∀ k, k ∈ seen ↔ k ∈ seen2) :
    firstOccurrencesFrom key seen l = firstOccurrencesFrom key seen2 l := by
  induction l generalizing seen seen2 with
  | nil => rfl
  | cons a l ih =>
    unfold firstOccurrencesFrom
    by_cases hseen : key a ∈ seen
    · rw [if_pos hseen, if_pos ((hsame _).mp hseen)]
      exact ih seen seen2 hsame
    · rw [if_neg hseen, if_neg (fun hmem => hseen ((hsame _).mpr hmem))]
      rw [ih (key a :: seen) (key a :: seen2) (fun k => by simp [hsame k])]

theorem firstOccurrencesFrom_length {α κ : Type} [DecidableEq κ] (key : α → κ) (l : List α) :
    (firstOccurrencesFrom key [] l).length = (l.map key).toFinset.card := by
  have hnodup : ((firstOccurrencesFrom key [] l).map key).Nodup := by
    unfold List.Nodup
    rw [List.pairwise_map]
    exact firstOccurrencesFrom_pairwise key l []
  have hset : ((firstOccurrencesFrom key [] l).map key).toFinset = (l.map key).toFinset := by
    ext k
    simp only [List.mem_toFinset, List.mem_map]
    constructor
    · rintro ⟨d, hd, hkey⟩
      exact ⟨d, (firstOccurrencesFrom_sublist key l []).subset hd, hkey⟩
    · rintro ⟨c, hc, hkey⟩
      rcases firstOccurrencesFrom_cover key l [] c hc with hseen | ⟨d, hd, hdkey⟩
      · simp at hseen
      · exact ⟨d, hd, hdkey.trans hkey⟩
  rw [← hset, List.toFinset_card_of_nodup hnodup, List.length_map]

/-! ## Sequences of camera insertions -/

theorem static_camera_any_iff_mem (l : List (SharedPtr Camera)) (n : String) :
    l.any (fun cam => cam.obj.camera_name_ == n) = true ↔
      n ∈ l.map (fun c => c.obj.camera_name_) := by
  simp only [List.any_eq_true, List.mem_map, beq_iff_eq]

theorem addStaticCameras_closed_form (cs : List (SharedPtr Camera)) (s : CeresBlocks) :
    (addStaticCameras s cs).2 =
      { s with static_cameras_ := (s.static_cameras_ ++
          firstOccurrencesFrom (fun c => c.obj.camera_name_)
            (s.static_cameras_.map (fun c => c.obj.camera_name_)) cs) } ∧
    (addStaticCameras s cs).1.count true =
      (firstOccurrencesFrom (fun c => c.obj.camera_name_)
        (s.static_cameras_.map (fun c => c.obj.camera_name_)) cs).length ∧
    (addStaticCameras s cs).1.length = cs.length := by
  induction cs generalizing s with
  | nil => simp [addStaticCameras, firstOccurrencesFrom]
  | cons c cs ih =>
    unfold addStaticCameras firstOccurrencesFrom
    cases hany : s.static_cameras_.any (fun cam => cam.obj.camera_name_ == c.obj.camera_name_)
    · have hnot : c.obj.camera_name_ ∉ s.static_cameras_.map (fun c => c.obj.camera_name_) :=
        fun hmem => by
          rw [(static_camera_any_iff_mem _ _).mpr hmem] at hany
          exact Bool.noConfusion hany
      have hcongr := firstOccurrencesFrom_congr (fun c : SharedPtr Camera => c.obj.camera_name_) cs
        ((s.static_cameras_ ++ [c]).map (fun c => c.obj.camera_name_))
        (c.obj.camera_name_ :: s.static_cameras_.map (fun c => c.obj.camera_name_))
        (fun k => by simp [or_comm])
      have hstep := ih { s with static_cameras_ := s.static_cameras_ ++ [c] }
      rw [addStaticCamera_of_absent s c hany, if_neg hnot]
      simp only [hcongr] at hstep
      refine ⟨?_, ?_, ?_⟩
      · rw [hstep.1]
        simp
      · rw [List.count_cons_self, hstep.2.1]
        simp
      · simp [hstep.2.2]
    · have hmem := (static_camera_any_iff_mem _ _).mp hany
      have hstep := ih s
      rw [addStaticCamera_of_present s c hany, if_pos hmem]
      refine ⟨hstep.1, ?_, ?_⟩
      · rw [List.count_cons_of_ne (by simp), hstep.2.1]
      · simp [hstep.2.2]

theorem moving_camera_any_iff_mem (l : List (SharedPtr MovingCamera)) (n : String)
    (scene_id : Int) :
    l.any (fun cam => cam.obj.cam.obj.camera_name_ == n && cam.obj.scene_id == scene_id) = true ↔
      (n, scene_id) ∈ l.map (fun e => (e.obj.cam.obj.camera_name_, e.obj.scene_id)) := by
  simp only [List.any_eq_true, List.mem_map, Bool.and_eq_true, beq_iff_eq, Prod.mk.injEq]

theorem addMovingCameras_closed_form (ps : List (SharedPtr Camera × Int)) (h : Heap)
    (s : CeresBlocks) :
    ∃ stored : List (SharedPtr MovingCamera),
      (addMovingCameras h s ps).2.1 = { s with moving_cameras_ := (s.moving_cameras_ ++ stored) } ∧
      stored.map (fun e => (e.obj.cam.obj, e.obj.scene_id)) =
        (firstOccurrencesFrom (fun p : SharedPtr Camera × Int => (p.1.obj.camera_name_, p.2))
          (s.moving_cameras_.map (fun e => (e.obj.cam.obj.camera_name_, e.obj.scene_id))) ps).map
          (fun p => (Camera.new p.1.obj.camera_name_ p.1.obj.camera_parameters_ true, p.2)) ∧
      (addMovingCameras h s ps).1.count true = stored.length ∧
      (addMovingCameras h s ps).1.length = ps.length := by
  induction ps generalizing h s with
  | nil => exact ⟨[], by simp [addMovingCameras, firstOccurrencesFrom]⟩
  | cons p ps ih =>
    unfold addMovingCameras firstOccurrencesFrom
    cases hany : s.moving_cameras_.any (fun cam =>
      cam.obj.cam.obj.camera_name_ == p.1.obj.camera_name_ && cam.obj.scene_id == p.2)
    · have hnot : (p.1.obj.camera_name_, p.2) ∉
          s.moving_cameras_.map (fun e => (e.obj.cam.obj.camera_name_, e.obj.scene_id)) :=
        fun hmem => by
          rw [(moving_camera_any_iff_mem _ _ _).mpr hmem] at hany
          exact Bool.noConfusion hany
      have hr := addMovingCamera_of_absent h s p.1 p.2 hany
      obtain ⟨rest, hrest⟩ := ih (addMovingCamera h s p.1 p.2).2.2
        (addMovingCamera h s p.1 p.2).2.1
      rw [hr] at hrest ⊢
      have hcongr := firstOccurrencesFrom_congr
        (fun p : SharedPtr Camera × Int => (p.1.obj.camera_name_, p.2)) ps
        ((s.moving_cameras_ ++
          [({ addr := h.next,
              obj := { cam := { addr := h.next + 1,
                                obj := Camera.new p.1.obj.camera_name_
                                  p.1.obj.camera_parameters_ true },
                       scene_id := p.2 } } : SharedPtr MovingCamera)]).map
          (fun e : SharedPtr MovingCamera => (e.obj.cam.obj.camera_name_, e.obj.scene_id)))
        ((p.1.obj.camera_name_, p.2) ::
          s.moving_cameras_.map
            (fun e : SharedPtr MovingCamera => (e.obj.cam.obj.camera_name_, e.obj.scene_id)))
        (fun k => by simp [Camera.new, or_comm])
      simp only [hcongr] at hrest
      rw [if_neg hnot]
      refine ⟨({ addr := h.next,
                 obj := { cam := { addr := h.next + 1,
                                   obj := Camera.new p.1.obj.camera_name_
                                     p.1.obj.camera_parameters_ true },
                          scene_id := p.2 } } : SharedPtr MovingCamera) :: rest, ?_, ?_, ?_, ?_⟩
      · rw [hrest.1]
        simp
      · rw [List.map_cons, List.map_cons, hrest.2.1]
      · rw [List.count_cons_self, hrest.2.2.1]
        simp
      · simp [hrest.2.2.2]
    · have hmem := (moving_camera_any_iff_mem _ _ _).mp hany
      have hr := addMovingCamera_of_present h s p.1 p.2 hany
      obtain ⟨rest, hrest⟩ := ih (addMovingCamera h s p.1 p.2).2.2
        (addMovingCamera h s p.1 p.2).2.1
      rw [hr] at hrest ⊢
      rw [if_pos hmem]
      refine ⟨rest, hrest.1, hrest.2.1, ?_, ?_⟩
      · rw [List.count_cons_of_ne (by simp), hrest.2.2.1]
      · simp [hrest.2.2.2]

theorem firstOccurrencesFrom_first {α κ : Type} [DecidableEq κ] (key : α → κ) (l : List α)
    (seen : List κ) (d : α) (hd : d ∈ firstOccurrencesFrom key seen l) :
    ∃ pre post, l = pre ++ d :: post ∧ ∀ x ∈ pre, key x ≠ key d := by
  obtain ⟨_, pre, post, hsplit, hpre⟩ :=
    List.find?_eq_some.mp (firstOccurrencesFrom_find key l seen d hd)
  exact ⟨pre, post, hsplit, fun x hx heq => by simpa [heq] using hpre x hx⟩

theorem firstOccurrencesFrom_after {α κ : Type} [DecidableEq κ] (key : α → κ) (l : List α)
    (before : List α) :
    firstOccurrencesFrom key (before.map key) l =
      ((l.zip (l.inits.map (fun x => before ++ x))).filter
        (fun p => decide (key p.1 ∉ p.2.map key))).map Prod.fst := by
  induction l generalizing before with
  | nil => simp [firstOccurrencesFrom]
  | cons a l ih =>
    have hrest : (l.inits.map (fun t => a :: t)).map (fun x => before ++ x)
        = l.inits.map (fun x => (before ++ [a]) ++ x) := by
      rw [List.map_map]
      apply List.map_congr_left
      intro x _
      simp
    unfold firstOccurrencesFrom
    rw [List.inits_cons, List.map_cons, List.zip_cons_cons, List.filter_cons, hrest]
    simp only [List.append_nil]
    by_cases hseen : key a ∈ before.map key
    · have hdrop : ¬ (decide (key a ∉ before.map key) = true) := by
        simpa using hseen
      rw [if_pos hseen, if_neg hdrop, ← ih]
      exact firstOccurrencesFrom_congr key l _ _ (fun k => by
        simp only [List.map_append, List.mem_append, List.map_cons, List.map_nil,
          List.mem_singleton]
        constructor
        · exact fun hk => Or.inl hk
        · rintro (hk | hk)
          · exact hk
          · rw [hk]; exact hseen)
    · have hkeep : decide (key a ∉ before.map key) = true := by
        simpa using hseen
      rw [if_neg hseen, if_pos hkeep, List.map_cons, ← ih]
      congr 1
      exact firstOccurrencesFrom_congr key l _ _ (fun k => by
        simp only [List.map_append, List.mem_append, List.map_cons, List.map_nil,
          List.mem_singleton, List.mem_cons, List.not_mem_nil, or_false]
        exact or_comm)

theorem firstOccurrencesFrom_eq_firstOfEachKey {α κ : Type} [DecidableEq κ] (key : α → κ)
    (l : List α) : firstOccurrencesFrom key [] l = firstOfEachKey key l := by
  have hafter := firstOccurrencesFrom_after key l []
  simpa [firstOfEachKey] using hafter

/-- C17: for every list `cs` of cameras inserted one after the other with
`addStaticCamera` into the empty registry, the final length of `static_cameras_` is the
number of calls that returned true, which is the number of distinct camera names of
`cs`, and `static_cameras_` is exactly the list of the first camera of each distinct
name of `cs` in order of first occurrence (the same objects): a sublist of `cs`, each
stored camera preceded in `cs` by no camera of its name, every name of `cs` being the
name of a stored camera. Likewise for every list `ps` of cameras with scene ids inserted
with `addMovingCamera`: the final length of `moving_cameras_` is the number of calls that
returned true, which is the number of distinct (camera name, scene id) pairs of `ps`,
and the stored entries are exactly, in order, the copies (name and parameter values,
moving flag set, with the scene id) of the first member of each distinct (name, scene
id) pair of `ps` in order of first occurrence. -/
theorem camera_insertion_sequences (h0 : Heap) (cs : List (SharedPtr Camera))
    (ps : List (SharedPtr Camera × Int)) :
    ((addStaticCameras CeresBlocks.new cs).1.length = cs.length ∧
      (addStaticCameras CeresBlocks.new cs).2.static_cameras_.length
        = (addStaticCameras CeresBlocks.new cs).1.count true ∧
      (addStaticCameras CeresBlocks.new cs).1.count true
        = (cs.map (fun c => c.obj.camera_name_)).toFinset.card ∧
      (addStaticCameras CeresBlocks.new cs).2.static_cameras_
        = firstOfEachKey (fun c => c.obj.camera_name_) cs ∧
      List.Sublist (addStaticCameras CeresBlocks.new cs).2.static_cameras_ cs ∧
      (∀ d ∈ (addStaticCameras CeresBlocks.new cs).2.static_cameras_,
        ∃ pre post, cs = pre ++ d :: post ∧
          ∀ x ∈ pre, x.obj.camera_name_ ≠ d.obj.camera_name_) ∧
      (∀ c ∈ cs, ∃ d ∈ (addStaticCameras CeresBlocks.new cs).2.static_cameras_,
        d.obj.camera_name_ = c.obj.camera_name_)) ∧
    ((addMovingCameras h0 CeresBlocks.new ps).1.length = ps.length ∧
      (addMovingCameras h0 CeresBlocks.new ps).2.1.moving_cameras_.length
        = (addMovingCameras h0 CeresBlocks.new ps).1.count true ∧
      (addMovingCameras h0 CeresBlocks.new ps).1.count true
        = (ps.map (fun p => (p.1.obj.camera_name_, p.2))).toFinset.card ∧
      (addMovingCameras h0 CeresBlocks.new ps).2.1.moving_cameras_.map
          (fun e => (e.obj.cam.obj, e.obj.scene_id))
        = (firstOfEachKey (fun p : SharedPtr Camera × Int => (p.1.obj.camera_name_, p.2))
            ps).map (fun q =>
              (Camera.new q.1.obj.camera_name_ q.1.obj.camera_parameters_ true, q.2)) ∧
      List.Sublist
        (firstOfEachKey (fun p : SharedPtr Camera × Int => (p.1.obj.camera_name_, p.2)) ps) ps ∧
      (∀ q ∈ firstOfEachKey (fun p : SharedPtr Camera × Int => (p.1.obj.camera_name_, p.2)) ps,
        ∃ pre post, ps = pre ++ q :: post ∧
          ∀ x ∈ pre, ¬ (x.1.obj.camera_name_ = q.1.obj.camera_name_ ∧ x.2 = q.2)) ∧
      (∀ p ∈ ps,
        ∃ q ∈ firstOfEachKey (fun p : SharedPtr Camera × Int => (p.1.obj.camera_name_, p.2)) ps,
          q.1.obj.camera_name_ = p.1.obj.camera_name_ ∧ q.2 = p.2)) := by
  constructor
  · obtain ⟨hstate, hcount, hlen⟩ := addStaticCameras_closed_form cs CeresBlocks.new
    have hstored : (addStaticCameras CeresBlocks.new cs).2.static_cameras_
        = firstOccurrencesFrom (fun c : SharedPtr Camera => c.obj.camera_name_) [] cs := by
      rw [hstate]
      simp [CeresBlocks.new]
    have hcount : List.count true (addStaticCameras CeresBlocks.new cs).1
        = (firstOccurrencesFrom (fun c : SharedPtr Camera => c.obj.camera_name_) [] cs).length :=
      hcount
    rw [hstored]
    refine ⟨hlen, hcount.symm, ?_, firstOccurrencesFrom_eq_firstOfEachKey _ cs,
      firstOccurrencesFrom_sublist _ cs [], ?_, ?_⟩
    · rw [hcount]
      exact firstOccurrencesFrom_length _ cs
    · intro d hd
      exact firstOccurrencesFrom_first _ cs [] d hd
    · intro c hc
      rcases firstOccurrencesFrom_cover (fun c : SharedPtr Camera => c.obj.camera_name_)
        cs [] c hc with hseen | hfound
      · simp at hseen
      · exact hfound
  · obtain ⟨stored, hstate, hmap, hcount, hlen⟩ :=
      addMovingCameras_closed_form ps h0 CeresBlocks.new
    have hstored : (addMovingCameras h0 CeresBlocks.new ps).2.1.moving_cameras_ = stored := by
      rw [hstate]
      simp [CeresBlocks.new]
    have hmap : stored.map (fun e => (e.obj.cam.obj, e.obj.scene_id))
        = (firstOccurrencesFrom
            (fun p : SharedPtr Camera × Int => (p.1.obj.camera_name_, p.2)) [] ps).map
          (fun p => (Camera.new p.1.obj.camera_name_ p.1.obj.camera_parameters_ true, p.2)) :=
      hmap
    have hlength : stored.length = (firstOccurrencesFrom
        (fun p : SharedPtr Camera × Int => (p.1.obj.camera_name_, p.2)) [] ps).length := by
      have hl := congrArg List.length hmap
      simpa using hl
    rw [hstored, ← firstOccurrencesFrom_eq_firstOfEachKey]
    refine ⟨hlen, hcount.symm, ?_, hmap, firstOccurrencesFrom_sublist _ ps [], ?_, ?_⟩
    · rw [hcount, hlength]
      exact firstOccurrencesFrom_length _ ps
    · intro q hq
      obtain ⟨pre, post, hsplit, hpre⟩ := firstOccurrencesFrom_first
        (fun p : SharedPtr Camera × Int => (p.1.obj.camera_name_, p.2)) ps [] q hq
      exact ⟨pre, post, hsplit, fun x hx heq => hpre x hx (by simp [heq.1, heq.2])⟩
    · intro p hp
      rcases firstOccurrencesFrom_cover
        (fun p : SharedPtr Camera × Int => (p.1.obj.camera_name_, p.2)) ps [] p hp
        with hseen | ⟨q, hq, hkey⟩
      · simp at hseen
      · exact ⟨q, hq, by simpa using hkey⟩

theorem camera_insertion_sequences_witness :
    (addStaticCameras CeresBlocks.new [camA, camB, camA, camA2]).1 = [true, true, false, false] ∧
    (addStaticCameras CeresBlocks.new [camA, camB, camA, camA2]).2.static_cameras_
      = firstOfEachKey (fun c => c.obj.camera_name_) [camA, camB, camA, camA2] ∧
    firstOfEachKey (fun c : SharedPtr Camera => c.obj.camera_name_) [camA, camB, camA, camA2]
      = [camA, camB] ∧
    (addStaticCameras CeresBlocks.new [camA, camB, camA, camA2]).1.count true
      = ([camA, camB, camA, camA2].map (fun c => c.obj.camera_name_)).toFinset.card ∧
    (addMovingCameras sampleHeap CeresBlocks.new [(camA, 1), (camA2, 1), (camA, 2)]).1
      = [true, false, true] ∧
    firstOfEachKey (fun p : SharedPtr Camera × Int => (p.1.obj.camera_name_, p.2))
        [(camA, 1), (camA2, 1), (camA, 2)]
      = [(camA, 1), (camA, 2)] ∧
    (addMovingCameras sampleHeap CeresBlocks.new
        [(camA, 1), (camA2, 1), (camA, 2)]).2.1.moving_cameras_.length
      = (addMovingCameras sampleHeap CeresBlocks.new
        [(camA, 1), (camA2, 1), (camA, 2)]).1.count true :=
  ⟨by decide,
   (camera_insertion_sequences sampleHeap [camA, camB, camA, camA2]
      [(camA, 1), (camA2, 1), (camA, 2)]).1.2.2.2.1,
   by decide,
   (camera_insertion_sequences sampleHeap [camA, camB, camA, camA2]
      [(camA, 1), (camA2, 1), (camA, 2)]).1.2.2.1,
   by decide, by decide,
   (camera_insertion_sequences sampleHeap [camA, camB, camA, camA2]
      [(camA, 1), (camA2, 1), (camA, 2)]).2.2.1⟩

end industrial_extrinsic_cal
